import Mathlib

/-!
# FilterX evaluation runtime

A shallow embedding of `lib/filterx/filterx-eval.c`, `lib/filterx/filterx-eval.h` and
`lib/filterx/filterx-pipe.c`.

Memory is explicit: every C pointer is an address (`Nat`), a nullable pointer is an
`Option Nat`, and each kind of allocation lives in its own heap inside `State`.
A function that can dereference NULL or hit a failing `g_assert` returns an `Option`,
`none` standing for the aborted run.
-/

namespace FilterX

/-! ## Data model -/

/-- Tri-state result of one evaluation: `FilterXEvalResult` in filterx-eval.h.
`FXE_SUCCESS` is the enumerator with value 0, the one a zeroed Error Slot holds. -/
inductive FilterXEvalResult where
  | FXE_SUCCESS
  | FXE_FAILURE
  | FXE_DROP
  deriving DecidableEq, Repr

/-- Explicit control override: `FilterXEvalControl` in filterx-eval.h.
`FXC_NOTSET` is the enumerator with value 0. -/
inductive FilterXEvalControl where
  | FXC_NOTSET
  | FXC_DROP
  | FXC_DONE
  deriving DecidableEq, Repr

open FilterXEvalResult FilterXEvalControl

/-- Modelled from the spec: filterx-object.h is not under src. A Value is reference
counted, carries the `frozen` and `weak_referenced` flags, and has three capabilities:
a truthiness test, a human-readable representation and a typed serialization (the last
two may fail, `none`). -/
structure FilterXObject where
  ref_cnt : Int
  frozen : Bool
  weak_referenced : Bool
  truthy : Bool
  repr : Option String
  marshal : Option String
  deriving DecidableEq, Repr

/-- Modelled from the spec: filterx-error.h is not under src. The fields are the ones
filterx-eval.c reads and writes: the classification `error_type`, the borrowed `message`
and `expr`, the owned `object`, and the text `info` with its ownership bit `free_info`. -/
structure FilterXError where
  error_type : FilterXEvalResult
  message : Option String
  expr : Option Nat
  object : Option Nat
  info : Option Nat
  free_info : Bool
  deriving DecidableEq, Repr

/-- Modelled from the spec: filterx-scope.h is not under src. A Scope is reference
counted and has a `dirty` flag and a `write_protected` flag. -/
structure FilterXScope where
  ref_cnt : Int
  dirty : Bool
  write_protected : Bool
  deriving DecidableEq, Repr

/-- Modelled from the spec: template/eval.h is not under src. Only whether the options
are the zeroed ones or `DEFAULT_TEMPLATE_EVAL_OPTIONS` is tracked. -/
inductive LogTemplateEvalOptions where
  | zeroed
  | DEFAULT_TEMPLATE_EVAL_OPTIONS
  deriving DecidableEq, Repr

/-- The struct `_FilterXEvalContext` of filterx-eval.h. `msgs` holds the bound message,
`scope` the address of the Scope, `weak_refs` the address of the registry array. -/
structure FilterXEvalContext where
  msgs : Option Nat
  num_msg : Int
  scope : Nat
  error : FilterXError
  template_eval_options : LogTemplateEvalOptions
  weak_refs : Option Nat
  eval_control_modifier : FilterXEvalControl
  previous_context : Option Nat
  deriving DecidableEq, Repr

/-- A heap-allocated text (`gchar *`): its characters and how many times `g_free` was
called on it, as an allocation-tracking harness would count. -/
structure Text where
  str : String
  frees : Nat
  deriving DecidableEq, Repr

/-- Modelled from the spec: the drop reasons of the acknowledgement layer, which is not
under src; the Pipeline Stage uses the "processed" one. -/
inductive AckType where
  | AT_UNDEFINED
  | AT_PROCESSED
  | AT_ABORTED
  | AT_SUSPENDED
  deriving DecidableEq, Repr

/-- Modelled from the spec: logpipe.h is not under src. Of `LogPathOptions` the stage
uses the nullable pointer to the "matched" output flag and the embedded evaluation
context, given here by its address. -/
structure LogPathOptions where
  matched : Option Nat
  filterx_context : Nat
  deriving DecidableEq, Repr

/-- What the stage hands to its collaborators, in order: trace records and the
forward/drop of a message. -/
inductive Event where
  | msg_debug (location : Option Nat) (error : String)
  | trace_begin (rule : Option String) (msg : Nat)
  | trace_result (eval_result : String) (rule : Option String) (dirty : Bool) (msg : Nat)
  | forward_msg (msg : Nat) (path_options : LogPathOptions)
  | msg_drop (msg : Nat) (path_options : LogPathOptions) (ack_type : AckType)
  deriving DecidableEq, Repr

/-- The memory of one worker thread. `eval_context` is the thread-local current-context
pointer; `contexts`, `objects`, `scopes`, `arrays`, `texts`, `flags` are the heaps;
`scope_brk` and `array_brk` are the next addresses the allocators hand out; `payload`
maps a message to its attribute table and `nv_refs` counts the references of a table;
`debug_flag` and `trace_flag` switch the two tracing levels; `events` is the output. -/
structure State where
  eval_context : Option Nat
  contexts : Nat → FilterXEvalContext
  objects : Nat → FilterXObject
  scopes : Nat → FilterXScope
  scope_brk : Nat
  arrays : Nat → Option (List Nat)
  array_brk : Nat
  texts : Nat → Text
  flags : Nat → Bool
  payload : Nat → Nat
  nv_refs : Nat → Int
  debug_flag : Bool
  trace_flag : Bool
  events : List Event

/-- The all-zero Error Slot, what `memset(error, 0, sizeof(*error))` leaves. -/
def FilterXError.zero : FilterXError :=
  { error_type := FXE_SUCCESS, message := none, expr := none, object := none,
    info := none, free_info := false }

/-- The all-zero context with its `scope` field already set: the model has no NULL
scope, so `memset(context, 0, ...)` and the store to `context->scope` are one step. -/
def FilterXEvalContext.zero (scope : Nat) : FilterXEvalContext :=
  { msgs := none, num_msg := 0, scope := scope, error := FilterXError.zero,
    template_eval_options := LogTemplateEvalOptions.zeroed, weak_refs := none,
    eval_control_modifier := FXC_NOTSET, previous_context := none }

/-! ## Collaborators that are not under src -/

/-- Modelled from the spec: `filterx_object_is_frozen` (filterx-object.h), the `frozen`
attribute of a Value. -/
def filterx_object_is_frozen (object : Nat) (s : State) : Bool :=
  (s.objects object).frozen

/-- Modelled from the spec: `filterx_object_ref` (filterx-object.h). NULL is passed
through; a frozen Value is exempt from reference counting; otherwise the count goes up
by one. The C function returns its argument, which the caller already holds. -/
def filterx_object_ref (object : Option Nat) (s : State) : State :=
  match object with
  | none => s
  | some o =>
    if filterx_object_is_frozen o s then s
    else { s with objects := Function.update s.objects o
                    { s.objects o with ref_cnt := (s.objects o).ref_cnt + 1 } }

/-- Modelled from the spec: `filterx_object_unref` (filterx-object.h). NULL is ignored;
a frozen Value is exempt from reference counting; otherwise the count goes down by one
(the Value is destroyed when it reaches zero). -/
def filterx_object_unref (object : Option Nat) (s : State) : State :=
  match object with
  | none => s
  | some o =>
    if filterx_object_is_frozen o s then s
    else { s with objects := Function.update s.objects o
                    { s.objects o with ref_cnt := (s.objects o).ref_cnt - 1 } }

/-- Modelled from the spec: `filterx_object_truthy` (filterx-object.h), the truthiness
test of a Value. -/
def filterx_object_truthy (object : Nat) (s : State) : Bool :=
  (s.objects object).truthy

/-- GLib `g_free`: NULL is ignored, otherwise the text is released (counted). -/
def g_free (p : Option Nat) (s : State) : State :=
  match p with
  | none => s
  | some a =>
    let freed : Text := { s.texts a with frees := (s.texts a).frees + 1 }
    { s with texts := Function.update s.texts a freed }

/-- Modelled from the spec: `filterx_scope_set_dirty` (filterx-scope.h) sets the `dirty`
flag of the Scope. -/
def filterx_scope_set_dirty (scope : Nat) (s : State) : State :=
  { s with scopes := Function.update s.scopes scope { s.scopes scope with dirty := true } }

/-- Modelled from the spec: `filterx_scope_is_dirty` (filterx-scope.h) reads the `dirty`
flag of the Scope. -/
def filterx_scope_is_dirty (scope : Nat) (s : State) : Bool :=
  (s.scopes scope).dirty

/-- Modelled from the spec: `filterx_scope_ref` (filterx-scope.h), one more reference on
the Scope. The C function returns its argument. -/
def filterx_scope_ref (scope : Nat) (s : State) : State :=
  let held : FilterXScope := { s.scopes scope with ref_cnt := (s.scopes scope).ref_cnt + 1 }
  { s with scopes := Function.update s.scopes scope held }

/-- Modelled from the spec: `filterx_scope_unref` (filterx-scope.h), one reference less
on the Scope (it is destroyed when the last one goes). -/
def filterx_scope_unref (scope : Nat) (s : State) : State :=
  let released : FilterXScope := { s.scopes scope with ref_cnt := (s.scopes scope).ref_cnt - 1 }
  { s with scopes := Function.update s.scopes scope released }

/-- Modelled from the spec: `filterx_scope_new` (filterx-scope.h) allocates a fresh Scope,
held once, clean and writable, at the next free address, which it returns. -/
def filterx_scope_new (s : State) : Nat × State :=
  (s.scope_brk,
   { s with scopes := Function.update s.scopes s.scope_brk
              { ref_cnt := 1, dirty := false, write_protected := false },
            scope_brk := s.scope_brk + 1 })

/-- Modelled from the spec: `filterx_scope_make_writable` (filterx-scope.h), the
copy-on-write-if-needed step. A write-protected Scope is cloned into a fresh writable
one held once, the reference on the original is dropped, and the caller is rebound to
the clone; a Scope that is not write-protected is kept. Returns the Scope to use. -/
def filterx_scope_make_writable (scope : Nat) (s : State) : Nat × State :=
  if (s.scopes scope).write_protected then
    let s1 : State :=
      { s with scopes := Function.update s.scopes s.scope_brk
                 { s.scopes scope with ref_cnt := 1, write_protected := false },
               scope_brk := s.scope_brk + 1 }
    (s.scope_brk, filterx_scope_unref scope s1)
  else (scope, s)

/-- GLib `g_ptr_array_new_with_free_func`: a fresh empty array at the next free address.
Every array of this program is created with `filterx_object_unref` as element
destructor. -/
def g_ptr_array_new_with_free_func (s : State) : Nat × State :=
  (s.array_brk,
   { s with arrays := Function.update s.arrays s.array_brk (some []),
            array_brk := s.array_brk + 1 })

/-- GLib `g_ptr_array_add`: append one pointer to the array. -/
def g_ptr_array_add (array : Nat) (data : Nat) (s : State) : State :=
  let grown : Option (List Nat) := (s.arrays array).map fun xs => xs ++ [data]
  { s with arrays := Function.update s.arrays array grown }

/-- GLib `g_ptr_array_free (array, TRUE)`: the element destructor (`filterx_object_unref`)
runs once on every element in order, then the array is released. A NULL array, or one
that is not allocated, is left alone (GLib only warns). -/
def g_ptr_array_free (array : Option Nat) (s : State) : State :=
  match array with
  | none => s
  | some a =>
    match s.arrays a with
    | none => s
    | some xs =>
      let s1 := xs.foldl (fun st o => filterx_object_unref (some o) st) s
      { s1 with arrays := Function.update s1.arrays a none }

/-! ## filterx-eval.c -/

/-- The C function `filterx_eval_get_context`. -/
def filterx_eval_get_context (s : State) : Option Nat :=
  s.eval_context

/-- The C function `filterx_eval_get_scope`. -/
def filterx_eval_get_scope (s : State) : Option Nat :=
  match s.eval_context with
  | some c => some (s.contexts c).scope
  | none => none

/-- The C function `filterx_eval_set_context`. -/
def filterx_eval_set_context (context : Option Nat) (s : State) : State :=
  { s with eval_context := context }

/-- Store into the Error Slot of the context at address `c`. -/
def set_error (c : Nat) (f : FilterXError → FilterXError) (s : State) : State :=
  let stored : FilterXEvalContext := { s.contexts c with error := f (s.contexts c).error }
  { s with contexts := Function.update s.contexts c stored }

/-- The static C function `filterx_eval_clear_error`, applied to `&context->error` of the
context at address `c`: unref the object, free the text when owned, zero the slot and
set the classification to `FXE_SUCCESS`. -/
def filterx_eval_clear_error (c : Nat) (s : State) : State :=
  let error := (s.contexts c).error
  let s1 := filterx_object_unref error.object s
  let s2 := if error.free_info then g_free error.info s1 else s1
  let s3 := set_error c (fun _ => FilterXError.zero) s2
  set_error c (fun e => { e with error_type := FXE_SUCCESS }) s3

/-- The C function `filterx_eval_push_error`. -/
def filterx_eval_push_error (message : Option String) (expr : Option Nat)
    (object : Option Nat) (s : State) : State :=
  match filterx_eval_get_context s with
  | some context =>
    let s1 := filterx_eval_clear_error context s
    let s2 := set_error context (fun e => { e with message := message }) s1
    let s3 := set_error context (fun e => { e with expr := expr }) s2
    let s4 := set_error context (fun e => { e with object := object })
                (filterx_object_ref object s3)
    set_error context (fun e => { e with info := none }) s4
  | none => s

/-- The C function `filterx_eval_push_error_info`. -/
def filterx_eval_push_error_info (message : Option String) (expr : Option Nat)
    (info : Option Nat) (free_info : Bool) (s : State) : State :=
  match filterx_eval_get_context s with
  | some context =>
    let s1 := filterx_eval_clear_error context s
    let s2 := set_error context (fun e => { e with message := message }) s1
    let s3 := set_error context (fun e => { e with expr := expr }) s2
    let s4 := set_error context (fun e => { e with object := none }) s3
    let s5 := set_error context (fun e => { e with info := info }) s4
    set_error context (fun e => { e with free_info := free_info }) s5
  | none =>
    if free_info then g_free info s else s

/-- The C function `filterx_eval_clear_errors`; it dereferences the current context
without a NULL test. -/
def filterx_eval_clear_errors (s : State) : Option State :=
  match filterx_eval_get_context s with
  | some context => some (filterx_eval_clear_error context s)
  | none => none

/-- The C function `filterx_eval_get_last_error`; it dereferences the current context
without a NULL test. -/
def filterx_eval_get_last_error (s : State) : Option (Option String) :=
  match filterx_eval_get_context s with
  | some context => some (s.contexts context).error.message
  | none => none

/-- The local `extra_info` of `filterx_format_last_error`: the text payload, else the
representation of the object written to the scratch buffer, else its serialization;
the outer `none` is the `g_assert_not_reached ()` taken when both fail. -/
def extra_info (error : FilterXError) (s : State) : Option (Option String) :=
  match error.info with
  | some p => some (some (s.texts p).str)
  | none =>
    match error.object with
    | some o =>
      match (s.objects o).repr with
      | some r => some (some r)
      | none =>
        match (s.objects o).marshal with
        | some m => some (some m)
        | none => none
    | none => some none

/-- The C function `filterx_format_last_error`: the value of the "error" tag. -/
def filterx_format_last_error (s : State) : Option String :=
  match filterx_eval_get_context s with
  | none => none
  | some context =>
    let error := (s.contexts context).error
    match error.message with
    | none => some "Error information unset"
    | some message =>
      match extra_info error s with
      | none => none
      | some e => some (message ++ (if e.isSome then ": " else "") ++ e.getD "")

/-- The C function `filterx_format_last_error_location`: the location tag is the one
the expression layer renders for the recorded expression. -/
def filterx_format_last_error_location (s : State) : Option (Option Nat) :=
  match filterx_eval_get_context s with
  | some context => some (s.contexts context).error.expr
  | none => none

/-- The C function `filterx_eval_store_weak_ref`. `none` is the abort of
`g_assert(context->weak_refs)`, or the NULL dereference when no context is current. -/
def filterx_eval_store_weak_ref (object : Option Nat) (s : State) : Option State :=
  match object with
  | none => some s
  | some o =>
    if filterx_object_is_frozen o s then some s
    else
      let context := filterx_eval_get_context s
      if !(s.objects o).weak_referenced then
        let s1 : State :=
          { s with objects := Function.update s.objects o
                     { s.objects o with weak_referenced := true } }
        match context with
        | none => none
        | some c =>
          match (s1.contexts c).weak_refs with
          | none => none
          | some weak_refs => some (g_ptr_array_add weak_refs o (filterx_object_ref (some o) s1))
      else some s

/-- The C function `filterx_format_eval_result`: the value of the "eval result" tag. -/
def filterx_format_eval_result (result : FilterXEvalResult) : String :=
  match result with
  | FXE_SUCCESS => "Succesfully matched, forwarding"
  | FXE_DROP => "Explicitly dropped"
  | FXE_FAILURE => "Failed to match, dropping"

/-- Modelled from the spec: `msg_debug` (messages.h) is not under src. This is the
`msg_debug` call of the failure branch of `filterx_eval_exec`: when debugging is on,
the two tags are rendered (which can abort) and the record is emitted; when it is off
the tags are not evaluated. -/
def msg_debug_filterx_error (s : State) : Option State :=
  if s.debug_flag then
    match filterx_format_last_error_location s, filterx_format_last_error s with
    | some location, some error => some { s with events := s.events ++ [Event.msg_debug location error] }
    | _, _ => none
  else some s

/-- The first two statements of `filterx_eval_exec`: `context->msgs = &msg` and
`context->num_msg = 1`. -/
def bind_msgs (context : Nat) (msg : Nat) (s : State) : State :=
  let bound : FilterXEvalContext := { s.contexts context with msgs := some msg, num_msg := 1 }
  { s with contexts := Function.update s.contexts context bound }

/-- The C function `filterx_eval_exec`. The expression layer is not under src:
`filterx_expr_eval expr` is any function from the thread's memory to the returned
object (NULL for an evaluation error) and the memory it leaves. -/
def filterx_eval_exec (filterx_expr_eval : Nat → State → Option Nat × State)
    (context : Nat) (expr : Nat) (msg : Nat) (s : State) :
    Option (FilterXEvalResult × State) :=
  let s1 := bind_msgs context msg s
  match filterx_expr_eval expr s1 with
  | (none, s2) =>
    match msg_debug_filterx_error s2 with
    | none => none
    | some s3 =>
      match filterx_eval_clear_errors s3 with
      | none => none
      | some s4 => some (FXE_FAILURE, filterx_scope_set_dirty (s4.contexts context).scope s4)
  | (some res, s2) =>
    let eval_result :=
      if (s2.contexts context).error.error_type ≠ FXE_SUCCESS then
        (s2.contexts context).error.error_type
      else if filterx_object_truthy res s2 then FXE_SUCCESS
      else FXE_FAILURE
    let s3 := filterx_object_unref (some res) s2
    some (eval_result, filterx_scope_set_dirty (s3.contexts context).scope s3)

/-- Store into the context at address `c`. -/
def set_context_fields (c : Nat) (f : FilterXEvalContext → FilterXEvalContext) (s : State) :
    State :=
  { s with contexts := Function.update s.contexts c (f (s.contexts c)) }

/-- The C function `filterx_eval_init_context`. The statements run in source order, so
`previous_context->weak_refs` is read after the `memset` of `context`. -/
def filterx_eval_init_context (context : Nat) (previous_context : Option Nat) (s : State) :
    State :=
  let scope0 : Nat × State :=
    match previous_context with
    | some p => ((s.contexts p).scope, filterx_scope_ref (s.contexts p).scope s)
    | none => filterx_scope_new s
  let scope1 := filterx_scope_make_writable scope0.1 scope0.2
  let s1 := set_context_fields context (fun _ => FilterXEvalContext.zero scope1.1) scope1.2
  let s2 := set_context_fields context
    (fun c => { c with template_eval_options :=
                  LogTemplateEvalOptions.DEFAULT_TEMPLATE_EVAL_OPTIONS }) s1
  let s3 := set_context_fields context (fun c => { c with scope := scope1.1 }) s2
  let s4 : State :=
    match previous_context with
    | some p => set_context_fields context
                  (fun c => { c with weak_refs := (s3.contexts p).weak_refs }) s3
    | none =>
      let array := g_ptr_array_new_with_free_func s3
      set_context_fields context (fun c => { c with weak_refs := some array.1 }) array.2
  let s5 := set_context_fields context
    (fun c => { c with previous_context := previous_context }) s4
  filterx_eval_set_context (some context) s5

/-- The C function `filterx_eval_deinit_context`. -/
def filterx_eval_deinit_context (context : Nat) (s : State) : State :=
  let s1 :=
    if (s.contexts context).previous_context.isNone then
      g_ptr_array_free (s.contexts context).weak_refs s
    else s
  let s2 := filterx_scope_unref (s1.contexts context).scope s1
  filterx_eval_set_context (s2.contexts context).previous_context s2

/-! ## filterx-pipe.c -/

/-- The struct `_LogFilterXPipe` of filterx-pipe.c, without the generic `LogPipe` part:
the diagnostic rule name and the compiled expression. -/
structure LogFilterXPipe where
  name : Option String
  block : Nat
  deriving DecidableEq, Repr

/-- Modelled from the spec: `log_path_options_chain` (logpipe.h). The local path options
continue the incoming path (same "matched" flag) and carry the nested context. -/
def log_path_options_chain (local_context : Nat) (path_options : LogPathOptions) :
    LogPathOptions :=
  { matched := path_options.matched, filterx_context := local_context }

/-- Modelled from the spec: `msg_trace` (messages.h) emits the record when tracing is
on. -/
def msg_trace (record : Event) (s : State) : State :=
  if s.trace_flag then { s with events := s.events ++ [record] } else s

/-- Modelled from the spec: `nv_table_ref` (logmsg/nvtable.h), one more reference on the
attribute table. -/
def nv_table_ref (payload : Nat) (s : State) : State :=
  { s with nv_refs := Function.update s.nv_refs payload (s.nv_refs payload + 1) }

/-- Modelled from the spec: `nv_table_unref` (logmsg/nvtable.h), one reference less on the
attribute table. -/
def nv_table_unref (payload : Nat) (s : State) : State :=
  { s with nv_refs := Function.update s.nv_refs payload (s.nv_refs payload - 1) }

/-- Modelled from the spec: `log_pipe_forward_msg` (logpipe.h) hands the message to the
next stage along the given path. -/
def log_pipe_forward_msg (msg : Nat) (path_options : LogPathOptions) (s : State) : State :=
  { s with events := s.events ++ [Event.forward_msg msg path_options] }

/-- Modelled from the spec: `log_msg_drop` (logmsg/logmsg.h) drops the message with the
given reason. -/
def log_msg_drop (msg : Nat) (path_options : LogPathOptions) (ack_type : AckType)
    (s : State) : State :=
  { s with events := s.events ++ [Event.msg_drop msg path_options ack_type] }

/-- The `switch (eval_res)` of `log_filterx_pipe_queue`. -/
def dispatch (eval_res : FilterXEvalResult) (msg : Nat) (path_options : LogPathOptions)
    (s : State) : State :=
  match eval_res with
  | FXE_SUCCESS => log_pipe_forward_msg msg path_options s
  | FXE_FAILURE =>
    let s1 : State :=
      match path_options.matched with
      | some matched => { s with flags := Function.update s.flags matched false }
      | none => s
    log_msg_drop msg path_options AckType.AT_PROCESSED s1
  | FXE_DROP => log_msg_drop msg path_options AckType.AT_PROCESSED s

/-- The statements of `log_filterx_pipe_queue` before the call of `filterx_eval_exec`:
the nested context is set up on `local_context`, the "begin" record is traced and a
reference is taken on the attribute table of the message. Returns the saved `payload`
pointer and the memory. -/
def queue_enter (self : LogFilterXPipe) (local_context : Nat) (msg : Nat)
    (path_options : LogPathOptions) (s : State) : Nat × State :=
  let s1 := filterx_eval_init_context local_context (some path_options.filterx_context) s
  let s2 := msg_trace (Event.trace_begin self.name msg) s1
  let payload := s2.payload msg
  (payload, nv_table_ref payload s2)

/-- The statements of `log_filterx_pipe_queue` after the call of `filterx_eval_exec`:
the result record is traced with the Scope's dirty flag, the result is dispatched, and
the saved attribute-table reference is released. -/
def queue_leave (self : LogFilterXPipe) (msg : Nat) (path_options : LogPathOptions)
    (payload : Nat) (eval_res : FilterXEvalResult) (s4 : State) : State :=
  let dirty := filterx_scope_is_dirty (s4.contexts path_options.filterx_context).scope s4
  let s5 := msg_trace
    (Event.trace_result (filterx_format_eval_result eval_res) self.name dirty msg) s4
  let s6 := dispatch eval_res msg path_options s5
  nv_table_unref payload s6

/-- The C function `log_filterx_pipe_queue`. `local_context` is the address of
`local_path_options.filterx_context` in the stack frame of the call. -/
def log_filterx_pipe_queue (filterx_expr_eval : Nat → State → Option Nat × State)
    (self : LogFilterXPipe) (local_context : Nat) (msg : Nat) (path_options : LogPathOptions)
    (s : State) : Option State :=
  let entered := queue_enter self local_context msg path_options s
  let path_options := log_path_options_chain local_context path_options
  match filterx_eval_exec filterx_expr_eval path_options.filterx_context self.block msg
      entered.2 with
  | none => none
  | some (eval_res, s4) => some (queue_leave self msg path_options entered.1 eval_res s4)

/-- A run of `filterx_eval_store_weak_ref` calls, one per listed pointer, in order. -/
def store_weak_refs (objects : List (Option Nat)) (s : State) : Option State :=
  match objects with
  | [] => some s
  | object :: rest =>
    match filterx_eval_store_weak_ref object s with
    | none => none
    | some s1 => store_weak_refs rest s1

/-- No allocated registry holds a frozen object. -/
def registries_unfrozen (s : State) : Prop :=
  ∀ r xs, s.arrays r = some xs → ∀ x ∈ xs, (s.objects x).frozen = false

/-- One call on the Error Slot of the current context. -/
inductive ErrorOp where
  | push_error (message : Option String) (expr : Option Nat) (object : Option Nat)
  | push_error_info (message : Option String) (expr : Option Nat) (info : Option Nat)
      (free_info : Bool)
  | clear_errors
  deriving DecidableEq, Repr

/-- Perform one call on the Error Slot. -/
def ErrorOp.apply (op : ErrorOp) (s : State) : Option State :=
  match op with
  | ErrorOp.push_error message expr object =>
    some (filterx_eval_push_error message expr object s)
  | ErrorOp.push_error_info message expr info free_info =>
    some (filterx_eval_push_error_info message expr info free_info s)
  | ErrorOp.clear_errors => filterx_eval_clear_errors s

/-- Perform a sequence of calls on the Error Slot, in order. -/
def run_error_ops (ops : List ErrorOp) (s : State) : Option State :=
  match ops with
  | [] => some s
  | op :: rest =>
    match op.apply s with
    | none => none
    | some s1 => run_error_ops rest s1

/-- At most one payload kind is populated in the Error Slot. -/
def payload_exclusive (error : FilterXError) : Prop :=
  ¬ (error.object.isSome = true ∧ error.info.isSome = true)

instance (error : FilterXError) : Decidable (payload_exclusive error) := by
  unfold payload_exclusive
  infer_instance

/-! ## Sample memory used by the concrete evaluations -/

/-- A truthy, unfrozen, unregistered Value held once. -/
def sample_object : FilterXObject :=
  { ref_cnt := 1, frozen := false, weak_referenced := false, truthy := true,
    repr := some "true", marshal := some "true" }

/-- A root context: Scope 0, registry 0, empty Error Slot. -/
def sample_context : FilterXEvalContext :=
  { FilterXEvalContext.zero 0 with
    template_eval_options := LogTemplateEvalOptions.DEFAULT_TEMPLATE_EVAL_OPTIONS
    weak_refs := some 0 }

/-- A frozen Value. -/
def sample_frozen_object : FilterXObject :=
  { sample_object with frozen := true }

/-- A falsy Value. -/
def sample_falsy_object : FilterXObject :=
  { sample_object with truthy := false, repr := some "false", marshal := some "false" }

/-- A thread whose current context is the root context at address 0; object address 8
holds a frozen Value, address 9 a falsy one, every other a truthy one; Scope 0 and
registry 0 are allocated. -/
def sample_state : State :=
  { eval_context := some 0
    contexts := fun _ => sample_context
    objects := fun o =>
      if o = 8 then sample_frozen_object
      else if o = 9 then sample_falsy_object
      else sample_object
    scopes := fun _ => { ref_cnt := 1, dirty := false, write_protected := false }
    scope_brk := 1
    arrays := fun a => if a = 0 then some [] else none
    array_brk := 1
    texts := fun _ => { str := "details", frees := 0 }
    flags := fun _ => true
    payload := fun m => m
    nv_refs := fun _ => 1
    debug_flag := true
    trace_flag := true
    events := [] }

/-- An expression that raises the classification `FXE_FAILURE` on context 0 and returns
the (truthy) object at address 7. -/
def sample_expr_failure_truthy (_expr : Nat) (s : State) : Option Nat × State :=
  (some 7, set_error 0 (fun e => { e with error_type := FXE_FAILURE }) s)

/-- An expression that fails: it pushes an error with the owned text at address 5 and
returns NULL. -/
def sample_expr_error (_expr : Nat) (s : State) : Option Nat × State :=
  (none, filterx_eval_push_error_info (some "failed") (some 3) (some 5) true s)

/-- An expression that fails without pushing any error: it returns NULL. -/
def sample_expr_null (_expr : Nat) (s : State) : Option Nat × State :=
  (none, s)

/-- An expression that requests `FXE_DROP` on the nested context at address 1 and returns
the falsy object at address 9. -/
def sample_expr_drop_falsy (_expr : Nat) (s : State) : Option Nat × State :=
  (some 9, set_error 1 (fun e => { e with error_type := FXE_DROP }) s)

/-- A stage with the rule name "rule" and the compiled expression 0. -/
def sample_pipe : LogFilterXPipe :=
  { name := some "rule", block := 0 }

/-- Incoming path options: the "matched" flag lives at address 0, the upstream context
at address 0. -/
def sample_path_options : LogPathOptions :=
  { matched := some 0, filterx_context := 0 }

/-- A root context at address 0 whose registry 0 tracks the objects 3 and 4. -/
def sample_root_state : State :=
  { sample_state with arrays := fun a => if a = 0 then some [3, 4] else none }

/-- A thread with no current context. -/
def sample_idle_state : State :=
  { sample_state with eval_context := none }

/-- The sample thread (current context 0) in which the context at address 1, which is
not the current one, holds a pending error: classification `FXE_DROP`, message "stale"
and the object 3 as payload. -/
def sample_stale_state : State :=
  set_error 1
    (fun e => { e with error_type := FXE_DROP, message := some "stale", object := some 3 })
    sample_state

/-- A Value that has neither a representation nor a serialization. -/
def sample_unrenderable_object : FilterXObject :=
  { sample_object with repr := none, marshal := none }

/-- The sample thread with the unrenderable Value at object address 6. -/
def sample_unrenderable_state : State :=
  { sample_state with
    objects := Function.update sample_state.objects 6 sample_unrenderable_object }

/-- An expression that fails with the object 6 as error payload: it pushes the error
and returns NULL. -/
def sample_expr_unrenderable (_expr : Nat) (s : State) : Option Nat × State :=
  (none, filterx_eval_push_error (some "failed") (some 3) (some 6) s)

/-! ## The result protocol of `filterx_eval_exec` -/

/-- The classification step of `filterx_eval_exec` on a returned value: the Error
Slot's `error_type` when it is not `FXE_SUCCESS`, else by truthiness. -/
def exec_result (context res : Nat) (s2 : State) : FilterXEvalResult :=
  if (s2.contexts context).error.error_type ≠ FXE_SUCCESS then
    (s2.contexts context).error.error_type
  else if filterx_object_truthy res s2 then FXE_SUCCESS
  else FXE_FAILURE

/-- Unfolding of `filterx_eval_exec` when the expression returns the value `res`. -/
theorem exec_of_value (filterx_expr_eval : Nat → State → Option Nat × State)
    (context expr msg : Nat) (s : State) (res : Nat) (s2 : State)
    (hout : filterx_expr_eval expr (bind_msgs context msg s) = (some res, s2)) :
    filterx_eval_exec filterx_expr_eval context expr msg s =
      some (exec_result context res s2,
            filterx_scope_set_dirty
              ((filterx_object_unref (some res) s2).contexts context).scope
              (filterx_object_unref (some res) s2)) := by
  simp only [filterx_eval_exec, hout, exec_result]

/-- Unfolding of `filterx_eval_exec` when the expression returns NULL. -/
theorem exec_of_null (filterx_expr_eval : Nat → State → Option Nat × State)
    (context expr msg : Nat) (s : State) (s2 : State)
    (hout : filterx_expr_eval expr (bind_msgs context msg s) = (none, s2)) :
    filterx_eval_exec filterx_expr_eval context expr msg s =
      (msg_debug_filterx_error s2).bind fun s3 =>
        (filterx_eval_clear_errors s3).map fun s4 =>
          (FXE_FAILURE, filterx_scope_set_dirty (s4.contexts context).scope s4) := by
  simp only [filterx_eval_exec, hout]
  cases msg_debug_filterx_error s2 with
  | none => rfl
  | some s3 =>
    cases h : filterx_eval_clear_errors s3 <;> simp [h]

/-- C1, as stated, fails: an expression that sets the classification `FXE_FAILURE` and
returns a truthy value makes `filterx_eval_exec` return `FXE_FAILURE`, although it is
not the case that the value is falsy and no classification was set. -/
theorem exec_failure_iff_counterexample :
    ¬ ((filterx_eval_exec sample_expr_failure_truthy 0 0 0 sample_state).map Prod.fst
          = some FXE_FAILURE ↔
        (filterx_object_truthy 7
            (sample_expr_failure_truthy 0 (bind_msgs 0 0 sample_state)).2 = false ∧
         ((sample_expr_failure_truthy 0 (bind_msgs 0 0 sample_state)).2.contexts 0).error.error_type
            = FXE_SUCCESS)) := by
  decide

/-- C1, amended: when the expression returns a value `res` (leaving the memory `s2`),
`filterx_eval_exec` returns, and its result is `FXE_SUCCESS` iff the value is truthy and
the classification left in the Error Slot is `FXE_SUCCESS` (none set); it is
`FXE_FAILURE` iff either the value is falsy and no classification was set, or the
classification set is `FXE_FAILURE`; and it is the classification whenever one was set,
whatever the truthiness. -/
theorem filterx_eval_exec_result (filterx_expr_eval : Nat → State → Option Nat × State)
    (context expr msg : Nat) (s : State) (res : Nat) (s2 : State)
    (hout : filterx_expr_eval expr (bind_msgs context msg s) = (some res, s2)) :
    ∃ r s',
      filterx_eval_exec filterx_expr_eval context expr msg s = some (r, s') ∧
      (r = FXE_SUCCESS ↔
        (filterx_object_truthy res s2 = true ∧
         (s2.contexts context).error.error_type = FXE_SUCCESS)) ∧
      (r = FXE_FAILURE ↔
        ((filterx_object_truthy res s2 = false ∧
          (s2.contexts context).error.error_type = FXE_SUCCESS) ∨
         (s2.contexts context).error.error_type = FXE_FAILURE)) ∧
      ((s2.contexts context).error.error_type ≠ FXE_SUCCESS →
        r = (s2.contexts context).error.error_type) := by
  refine ⟨_, _, exec_of_value filterx_expr_eval context expr msg s res s2 hout, ?_⟩
  simp only [exec_result]
  cases het : (s2.contexts context).error.error_type <;>
    cases htr : filterx_object_truthy res s2 <;> simp

/-- Witness of `filterx_eval_exec_result` on the sample expression. -/
theorem filterx_eval_exec_result_witness :
    ∃ r s',
      filterx_eval_exec sample_expr_failure_truthy 0 0 0 sample_state = some (r, s') ∧
      r = FXE_FAILURE :=
  match filterx_eval_exec_result sample_expr_failure_truthy 0 0 0 sample_state 7 _ rfl with
  | ⟨r, s', h, _, _, hcls⟩ => ⟨r, s', h, hcls (by decide)⟩

/-! ## Effect of the primitive operations on each heap -/

/-- Reference count of every object after `filterx_object_unref`. -/
theorem unref_ref_cnt (object : Option Nat) (o : Nat) (s : State) :
    ((filterx_object_unref object s).objects o).ref_cnt =
      if object = some o ∧ (s.objects o).frozen = false then (s.objects o).ref_cnt - 1
      else (s.objects o).ref_cnt := by
  cases object with
  | none => simp [filterx_object_unref]
  | some p =>
    by_cases hp : p = o
    · subst hp
      cases hf : (s.objects p).frozen <;>
        simp [filterx_object_unref, filterx_object_is_frozen, hf]
    · by_cases hf : (s.objects p).frozen = true
      · simp [filterx_object_unref, filterx_object_is_frozen, hf, hp]
      · simp [filterx_object_unref, filterx_object_is_frozen, hf, hp,
          Function.update_noteq (Ne.symm hp)]

/-- Reference count of every object after `filterx_object_ref`. -/
theorem ref_ref_cnt (object : Option Nat) (o : Nat) (s : State) :
    ((filterx_object_ref object s).objects o).ref_cnt =
      if object = some o ∧ (s.objects o).frozen = false then (s.objects o).ref_cnt + 1
      else (s.objects o).ref_cnt := by
  cases object with
  | none => simp [filterx_object_ref]
  | some p =>
    by_cases hp : p = o
    · subst hp
      cases hf : (s.objects p).frozen <;>
        simp [filterx_object_ref, filterx_object_is_frozen, hf]
    · by_cases hf : (s.objects p).frozen = true
      · simp [filterx_object_ref, filterx_object_is_frozen, hf, hp]
      · simp [filterx_object_ref, filterx_object_is_frozen, hf, hp,
          Function.update_noteq (Ne.symm hp)]

/-- The `frozen` flag is not changed by `filterx_object_unref`. -/
theorem unref_frozen (object : Option Nat) (o : Nat) (s : State) :
    ((filterx_object_unref object s).objects o).frozen = (s.objects o).frozen := by
  cases object with
  | none => rfl
  | some p =>
    by_cases hp : p = o
    · subst hp
      cases hf : (s.objects p).frozen <;>
        simp [filterx_object_unref, filterx_object_is_frozen, hf]
    · by_cases hf : (s.objects p).frozen = true
      · simp [filterx_object_unref, filterx_object_is_frozen, hf]
      · simp [filterx_object_unref, filterx_object_is_frozen, hf,
          Function.update_noteq (Ne.symm hp)]

/-- The `frozen` flag is not changed by `filterx_object_ref`. -/
theorem ref_frozen (object : Option Nat) (o : Nat) (s : State) :
    ((filterx_object_ref object s).objects o).frozen = (s.objects o).frozen := by
  cases object with
  | none => rfl
  | some p =>
    by_cases hp : p = o
    · subst hp
      cases hf : (s.objects p).frozen <;>
        simp [filterx_object_ref, filterx_object_is_frozen, hf]
    · by_cases hf : (s.objects p).frozen = true
      · simp [filterx_object_ref, filterx_object_is_frozen, hf]
      · simp [filterx_object_ref, filterx_object_is_frozen, hf,
          Function.update_noteq (Ne.symm hp)]

/-- Free count of every text after `g_free`. -/
theorem g_free_frees (p : Option Nat) (a : Nat) (s : State) :
    ((g_free p s).texts a).frees =
      if p = some a then (s.texts a).frees + 1 else (s.texts a).frees := by
  cases p with
  | none => simp [g_free]
  | some q =>
    by_cases hq : q = a
    · subst hq; simp [g_free]
    · simp [g_free, hq, Function.update_noteq (Ne.symm hq)]

/-- Outside the object heap `filterx_object_unref` changes nothing. -/
theorem unref_frame (object : Option Nat) (s : State) :
    filterx_object_unref object s =
      { s with objects := (filterx_object_unref object s).objects } := by
  cases object with
  | none => rfl
  | some p =>
    simp only [filterx_object_unref]
    split <;> rfl

/-- Outside the object heap `filterx_object_ref` changes nothing. -/
theorem ref_frame (object : Option Nat) (s : State) :
    filterx_object_ref object s =
      { s with objects := (filterx_object_ref object s).objects } := by
  cases object with
  | none => rfl
  | some p =>
    simp only [filterx_object_ref]
    split <;> rfl

/-- Outside the text heap `g_free` changes nothing. -/
theorem g_free_frame (p : Option Nat) (s : State) :
    g_free p s = { s with texts := (g_free p s).texts } := by
  cases p <;> rfl

@[simp] theorem unref_contexts (object : Option Nat) (s : State) :
    (filterx_object_unref object s).contexts = s.contexts := by
  rw [unref_frame]

@[simp] theorem unref_texts (object : Option Nat) (s : State) :
    (filterx_object_unref object s).texts = s.texts := by
  rw [unref_frame]

@[simp] theorem unref_eval_context (object : Option Nat) (s : State) :
    (filterx_object_unref object s).eval_context = s.eval_context := by
  rw [unref_frame]

@[simp] theorem unref_scopes (object : Option Nat) (s : State) :
    (filterx_object_unref object s).scopes = s.scopes := by
  rw [unref_frame]

@[simp] theorem unref_arrays (object : Option Nat) (s : State) :
    (filterx_object_unref object s).arrays = s.arrays := by
  rw [unref_frame]

@[simp] theorem unref_flags (object : Option Nat) (s : State) :
    (filterx_object_unref object s).flags = s.flags := by
  rw [unref_frame]

@[simp] theorem ref_contexts (object : Option Nat) (s : State) :
    (filterx_object_ref object s).contexts = s.contexts := by
  rw [ref_frame]

@[simp] theorem ref_texts (object : Option Nat) (s : State) :
    (filterx_object_ref object s).texts = s.texts := by
  rw [ref_frame]

@[simp] theorem ref_eval_context (object : Option Nat) (s : State) :
    (filterx_object_ref object s).eval_context = s.eval_context := by
  rw [ref_frame]

@[simp] theorem ref_arrays (object : Option Nat) (s : State) :
    (filterx_object_ref object s).arrays = s.arrays := by
  rw [ref_frame]

@[simp] theorem g_free_contexts (p : Option Nat) (s : State) :
    (g_free p s).contexts = s.contexts := by
  rw [g_free_frame]

@[simp] theorem g_free_objects (p : Option Nat) (s : State) :
    (g_free p s).objects = s.objects := by
  rw [g_free_frame]

@[simp] theorem g_free_eval_context (p : Option Nat) (s : State) :
    (g_free p s).eval_context = s.eval_context := by
  rw [g_free_frame]

/-- The contexts that `filterx_eval_clear_error` leaves: only the Error Slot of `c`
changes, to the empty slot. -/
theorem clear_error_contexts (c : Nat) (s : State) :
    (filterx_eval_clear_error c s).contexts =
      Function.update s.contexts c { s.contexts c with error := FilterXError.zero } := by
  unfold filterx_eval_clear_error
  by_cases hfi : (s.contexts c).error.free_info = true <;>
    simp [set_error, FilterXError.zero, hfi]

/-- The Error Slot that `filterx_eval_clear_error` leaves. -/
theorem clear_error_slot (c : Nat) (s : State) :
    ((filterx_eval_clear_error c s).contexts c).error = FilterXError.zero := by
  rw [clear_error_contexts]
  simp

/-- The objects that `filterx_eval_clear_error` leaves: the payload object is
unreferenced. -/
theorem clear_error_objects (c : Nat) (s : State) :
    (filterx_eval_clear_error c s).objects =
      (filterx_object_unref (s.contexts c).error.object s).objects := by
  unfold filterx_eval_clear_error
  by_cases hfi : (s.contexts c).error.free_info = true <;> simp [set_error, hfi]

/-- The texts that `filterx_eval_clear_error` leaves: the payload text is freed when it
is owned. -/
theorem clear_error_texts (c : Nat) (s : State) :
    (filterx_eval_clear_error c s).texts =
      if (s.contexts c).error.free_info = true then (g_free (s.contexts c).error.info s).texts
      else s.texts := by
  have hgu : ∀ p object, (g_free p (filterx_object_unref object s)).texts = (g_free p s).texts := by
    intro p object
    cases p with
    | none => exact unref_texts object s
    | some q => simp [g_free]
  unfold filterx_eval_clear_error
  by_cases hfi : (s.contexts c).error.free_info = true <;> simp [set_error, hfi, hgu]

/-- The current-context pointer is not changed by `filterx_eval_clear_error`. -/
theorem clear_error_eval_context (c : Nat) (s : State) :
    (filterx_eval_clear_error c s).eval_context = s.eval_context := by
  unfold filterx_eval_clear_error
  by_cases hfi : (s.contexts c).error.free_info = true <;> simp [set_error, hfi]

/-- When the pending error can be rendered (or debugging is off), the `msg_debug` record
is emitted and only the output changes. -/
theorem msg_debug_filterx_error_runs (s : State)
    (hfmt : s.debug_flag = true → (filterx_format_last_error s).isSome = true)
    (hcur : (filterx_eval_get_context s).isSome = true) :
    ∃ evs, msg_debug_filterx_error s = some { s with events := s.events ++ evs } := by
  unfold msg_debug_filterx_error
  by_cases hd : s.debug_flag = true
  · have h1 := hfmt hd
    rcases hE : filterx_format_last_error s with _ | e
    · rw [hE] at h1; simp at h1
    · rcases hc : filterx_eval_get_context s with _ | c
      · rw [hc] at hcur; simp at hcur
      · exact ⟨[Event.msg_debug (s.contexts c).error.expr e], by
          simp [filterx_format_last_error_location, hc, hd]⟩
  · refine ⟨[], ?_⟩
    rw [if_neg hd, List.append_nil]

/-- The NULL branch of `filterx_eval_exec` runs to the end when a context `cur` is
current and the pending error can be rendered: it returns `FXE_FAILURE`, having cleared
the slot of `cur` and set the Scope of `context` dirty. -/
theorem exec_null_runs (filterx_expr_eval : Nat → State → Option Nat × State)
    (context expr msg : Nat) (s : State) (s2 : State) (cur : Nat)
    (hout : filterx_expr_eval expr (bind_msgs context msg s) = (none, s2))
    (hcur : s2.eval_context = some cur)
    (hfmt : s2.debug_flag = true → (filterx_format_last_error s2).isSome = true) :
    ∃ evs,
      filterx_eval_exec filterx_expr_eval context expr msg s =
        some (FXE_FAILURE,
          filterx_scope_set_dirty
            ((filterx_eval_clear_error cur
                { s2 with events := s2.events ++ evs }).contexts context).scope
            (filterx_eval_clear_error cur { s2 with events := s2.events ++ evs })) := by
  rw [exec_of_null filterx_expr_eval context expr msg s s2 hout]
  obtain ⟨evs, hdbg⟩ := msg_debug_filterx_error_runs s2 hfmt (by
    simp [filterx_eval_get_context, hcur])
  rw [hdbg]
  refine ⟨evs, ?_⟩
  simp only [Option.some_bind, filterx_eval_clear_errors, filterx_eval_get_context, hcur,
    Option.map_some']

/-- When the NULL branch of `filterx_eval_exec` returns, it returns `FXE_FAILURE`. -/
theorem exec_null_failure (filterx_expr_eval : Nat → State → Option Nat × State)
    (context expr msg : Nat) (s : State) (s2 : State) (r : FilterXEvalResult) (s4 : State)
    (hout : filterx_expr_eval expr (bind_msgs context msg s) = (none, s2))
    (hexec : filterx_eval_exec filterx_expr_eval context expr msg s = some (r, s4)) :
    r = FXE_FAILURE := by
  rw [exec_of_null filterx_expr_eval context expr msg s s2 hout] at hexec
  rcases hd : msg_debug_filterx_error s2 with _ | s3
  · rw [hd] at hexec; simp at hexec
  · rcases hc : filterx_eval_clear_errors s3 with _ | s5
    · rw [hd] at hexec; simp [hc] at hexec
    · rw [hd] at hexec
      simp only [Option.some_bind, hc, Option.map_some', Option.some.injEq,
        Prod.mk.injEq] at hexec
      exact hexec.1.symm

/-- The NULL branch of `filterx_eval_exec` returns exactly when a context is current as
the expression returns and, with debugging on, the pending error can be rendered. -/
theorem exec_null_returns_iff (filterx_expr_eval : Nat → State → Option Nat × State)
    (context expr msg : Nat) (s : State) (s2 : State)
    (hout : filterx_expr_eval expr (bind_msgs context msg s) = (none, s2)) :
    (filterx_eval_exec filterx_expr_eval context expr msg s).isSome = true ↔
      (s2.eval_context.isSome = true ∧
       (s2.debug_flag = true → (filterx_format_last_error s2).isSome = true)) := by
  constructor
  · intro hsome
    rw [exec_of_null filterx_expr_eval context expr msg s s2 hout] at hsome
    rcases hc : s2.eval_context with _ | cur
    · exfalso
      by_cases hd : s2.debug_flag = true
      · simp [msg_debug_filterx_error, hd, filterx_format_last_error_location,
          filterx_eval_get_context, hc] at hsome
      · simp [msg_debug_filterx_error, hd, filterx_eval_clear_errors,
          filterx_eval_get_context, hc] at hsome
    · refine ⟨rfl, ?_⟩
      intro hd
      rcases hf : filterx_format_last_error s2 with _ | e
      · exfalso
        simp [msg_debug_filterx_error, hd, hf] at hsome
      · rfl
  · rintro ⟨hcur, hfmt⟩
    obtain ⟨cur, hc⟩ := Option.isSome_iff_exists.mp hcur
    obtain ⟨evs, hrun⟩ :=
      exec_null_runs filterx_expr_eval context expr msg s s2 cur hout hc hfmt
    rw [hrun]
    rfl

/-- C2, as stated, fails. With context 0 current, a NULL evaluation run on context 1
returns `FXE_FAILURE` but leaves the Error Slot of context 1 as it was: classification
`FXE_DROP`, message "stale", and the object 3 still referenced once. And with debugging
on, a NULL evaluation whose pending error holds an object with neither a representation
nor a serialization does not return at all. -/
theorem exec_null_slot_counterexample :
    sample_stale_state.eval_context = some 0 ∧
    (filterx_eval_exec sample_expr_null 1 0 0 sample_stale_state).map Prod.fst
      = some FXE_FAILURE ∧
    (filterx_eval_exec sample_expr_null 1 0 0 sample_stale_state).map
        (fun out => (out.2.contexts 1).error.error_type) = some FXE_DROP ∧
    (filterx_eval_exec sample_expr_null 1 0 0 sample_stale_state).map
        (fun out => (out.2.contexts 1).error.message) = some (some "stale") ∧
    (filterx_eval_exec sample_expr_null 1 0 0 sample_stale_state).map
        (fun out => (out.2.contexts 1).error.object) = some (some 3) ∧
    (filterx_eval_exec sample_expr_null 1 0 0 sample_stale_state).map
        (fun out => (out.2.objects 3).ref_cnt) = some (sample_stale_state.objects 3).ref_cnt ∧
    sample_unrenderable_state.debug_flag = true ∧
    (filterx_eval_exec sample_expr_unrenderable 0 0 0 sample_unrenderable_state).isSome
      = false := by
  decide

/-- C2, amended: when the expression evaluates to NULL while `context` is the thread's
current context and the pending error can be rendered for the debug record (debugging
is off, or `filterx_format_last_error` returns), `filterx_eval_exec` returns
`FXE_FAILURE` whatever the Error Slot held, and on return the slot is empty (no message,
expression, object or text, classification `FXE_SUCCESS`), the object payload has lost
exactly one reference, the text payload has been freed exactly once iff it was owned,
and no other object or text was touched. -/
theorem filterx_eval_exec_null (filterx_expr_eval : Nat → State → Option Nat × State)
    (context expr msg : Nat) (s : State) (s2 : State)
    (hout : filterx_expr_eval expr (bind_msgs context msg s) = (none, s2))
    (hcur : s2.eval_context = some context)
    (hfmt : s2.debug_flag = true → (filterx_format_last_error s2).isSome = true) :
    ∃ s',
      filterx_eval_exec filterx_expr_eval context expr msg s = some (FXE_FAILURE, s') ∧
      (s'.contexts context).error =
        { error_type := FXE_SUCCESS, message := none, expr := none, object := none,
          info := none, free_info := false } ∧
      (∀ o, (s'.objects o).ref_cnt =
          if (s2.contexts context).error.object = some o ∧ (s2.objects o).frozen = false
          then (s2.objects o).ref_cnt - 1 else (s2.objects o).ref_cnt) ∧
      (∀ a, (s'.texts a).frees =
          if (s2.contexts context).error.info = some a ∧
             (s2.contexts context).error.free_info = true
          then (s2.texts a).frees + 1 else (s2.texts a).frees) := by
  obtain ⟨evs, hrun⟩ :=
    exec_null_runs filterx_expr_eval context expr msg s s2 context hout hcur hfmt
  refine ⟨_, hrun, ?_, ?_, ?_⟩
  · simp only [filterx_scope_set_dirty]
    rw [clear_error_slot]
    rfl
  · intro o
    simp only [filterx_scope_set_dirty]
    rw [clear_error_objects, unref_ref_cnt]
  · intro a
    simp only [filterx_scope_set_dirty]
    rw [clear_error_texts]
    by_cases hfi : (s2.contexts context).error.free_info = true
    · simp only [hfi, if_true, and_true]
      exact g_free_frees _ a _
    · simp [hfi]

/-- Witness of `filterx_eval_exec_null`: the failing sample expression leaves an owned
text in the slot, and `filterx_eval_exec` frees it once. -/
theorem filterx_eval_exec_null_witness :
    ∃ s', filterx_eval_exec sample_expr_error 0 0 0 sample_state = some (FXE_FAILURE, s') ∧
      (s'.contexts 0).error.info = none ∧ (s'.texts 5).frees = 1 :=
  match filterx_eval_exec_null sample_expr_error 0 0 0 sample_state _ rfl rfl
      (fun _ => by decide) with
  | ⟨s', h, hslot, _, htxt⟩ => ⟨s', h, by rw [hslot], by rw [htxt 5]; decide⟩

/-! ## The dirty flag -/

/-- Unfolding of `log_filterx_pipe_queue` once `filterx_eval_exec` has returned `r` and
the memory `s4`. -/
theorem queue_of_exec (filterx_expr_eval : Nat → State → Option Nat × State)
    (self : LogFilterXPipe) (local_context msg : Nat) (path_options : LogPathOptions)
    (s : State) (r : FilterXEvalResult) (s4 : State)
    (hexec : filterx_eval_exec filterx_expr_eval local_context self.block msg
        (queue_enter self local_context msg path_options s).2 = some (r, s4)) :
    log_filterx_pipe_queue filterx_expr_eval self local_context msg path_options s =
      some (queue_leave self msg (log_path_options_chain local_context path_options)
        (queue_enter self local_context msg path_options s).1 r s4) := by
  simp only [log_filterx_pipe_queue, log_path_options_chain, hexec]

/-- The Scope of `context` is dirty after `filterx_scope_set_dirty` on it. -/
theorem set_dirty_is_dirty (context : Nat) (s : State) :
    filterx_scope_is_dirty
      ((filterx_scope_set_dirty (s.contexts context).scope s).contexts context).scope
      (filterx_scope_set_dirty (s.contexts context).scope s) = true := by
  simp [filterx_scope_is_dirty, filterx_scope_set_dirty]

/-- Whatever `filterx_eval_exec` returns, the Scope of `context` is dirty in the memory
it returns. -/
theorem exec_some_dirty (filterx_expr_eval : Nat → State → Option Nat × State)
    (context expr msg : Nat) (s : State) (r : FilterXEvalResult) (s' : State)
    (hexec : filterx_eval_exec filterx_expr_eval context expr msg s = some (r, s')) :
    filterx_scope_is_dirty (s'.contexts context).scope s' = true := by
  rcases hout : filterx_expr_eval expr (bind_msgs context msg s) with ⟨_ | res, s2⟩
  · rw [exec_of_null filterx_expr_eval context expr msg s s2 hout] at hexec
    rcases hd : msg_debug_filterx_error s2 with _ | s3
    · rw [hd] at hexec; simp at hexec
    · rcases hc : filterx_eval_clear_errors s3 with _ | s4
      · rw [hd] at hexec; simp [hc] at hexec
      · rw [hd] at hexec
        simp only [Option.some_bind, hc, Option.map_some', Option.some.injEq,
          Prod.mk.injEq] at hexec
        rw [← hexec.2]
        exact set_dirty_is_dirty context s4
  · rw [exec_of_value filterx_expr_eval context expr msg s res s2 hout] at hexec
    simp only [Option.some.injEq, Prod.mk.injEq] at hexec
    rw [← hexec.2]
    exact set_dirty_is_dirty context _

/-- C3: `filterx_eval_exec` returns with the Scope of `context` dirty for every outcome
of the evaluation (NULL, truthy, falsy, any classification); for the NULL outcome it
returns provided a context is current and the pending error can be rendered for the
debug record. The stage reads the flag of that same Scope right after the call, so the
result record it traces carries `dirty = true`, also after a failed evaluation. -/
theorem filterx_eval_exec_sets_dirty (filterx_expr_eval : Nat → State → Option Nat × State)
    (context expr msg : Nat) (s : State)
    (hnull : (filterx_expr_eval expr (bind_msgs context msg s)).1 = none →
      (filterx_expr_eval expr (bind_msgs context msg s)).2.eval_context.isSome = true ∧
      ((filterx_expr_eval expr (bind_msgs context msg s)).2.debug_flag = true →
        (filterx_format_last_error
          (filterx_expr_eval expr (bind_msgs context msg s)).2).isSome = true)) :
    (∃ r s', filterx_eval_exec filterx_expr_eval context expr msg s = some (r, s') ∧
      filterx_scope_is_dirty (s'.contexts context).scope s' = true) ∧
    (∀ (self : LogFilterXPipe) (path_options : LogPathOptions) (s0 : State)
       (r : FilterXEvalResult) (s4 : State),
      filterx_eval_exec filterx_expr_eval context self.block msg
        (queue_enter self context msg path_options s0).2 = some (r, s4) →
      log_filterx_pipe_queue filterx_expr_eval self context msg path_options s0 =
        some (nv_table_unref (queue_enter self context msg path_options s0).1
          (dispatch r msg (log_path_options_chain context path_options)
            (msg_trace (Event.trace_result (filterx_format_eval_result r) self.name true msg)
              s4)))) := by
  constructor
  · have hret : ∃ r s', filterx_eval_exec filterx_expr_eval context expr msg s = some (r, s') := by
      rcases hout : filterx_expr_eval expr (bind_msgs context msg s) with ⟨_ | res, s2⟩
      · rw [hout] at hnull
        obtain ⟨hcur, hfmt⟩ := hnull rfl
        simp only at hcur hfmt
        obtain ⟨cur, hc⟩ := Option.isSome_iff_exists.mp hcur
        obtain ⟨evs, hrun⟩ :=
          exec_null_runs filterx_expr_eval context expr msg s s2 cur hout hc hfmt
        exact ⟨_, _, hrun⟩
      · exact ⟨_, _, exec_of_value filterx_expr_eval context expr msg s res s2 hout⟩
    obtain ⟨r, s', h⟩ := hret
    exact ⟨r, s', h, exec_some_dirty filterx_expr_eval context expr msg s r s' h⟩
  · intro self path_options s0 r s4 hexec
    rw [queue_of_exec filterx_expr_eval self context msg path_options s0 r s4 hexec]
    simp only [queue_leave, log_path_options_chain,
      exec_some_dirty filterx_expr_eval context self.block msg _ r s4 hexec]

/-- Witness of `filterx_eval_exec_sets_dirty`: after a failed evaluation the Scope of
the context is dirty. -/
theorem filterx_eval_exec_sets_dirty_witness :
    ∃ r s', filterx_eval_exec sample_expr_null 0 0 0 sample_state = some (r, s') ∧
      filterx_scope_is_dirty (s'.contexts 0).scope s' = true :=
  (filterx_eval_exec_sets_dirty sample_expr_null 0 0 0 sample_state
    (fun _ => ⟨rfl, fun _ => rfl⟩)).1

/-! ## Dispatch in the Pipeline Stage -/

/-- C4, as stated, fails in its last clause: an evaluation that returns a falsy value and
requests `FXE_DROP` is dropped, but the "matched" flag the path carries is not cleared
(it was true and stays true). And with debugging on, a NULL evaluation whose pending
error holds an object with neither a representation nor a serialization is not dropped:
the stage does not return. -/
theorem queue_falsy_drop_counterexample :
    filterx_object_truthy 9
        (sample_expr_drop_falsy 0
          (bind_msgs 1 0 (queue_enter sample_pipe 1 0 sample_path_options sample_state).2)).2
      = false ∧
    sample_path_options.matched = some 0 ∧
    (log_filterx_pipe_queue sample_expr_drop_falsy sample_pipe 1 0 sample_path_options
        sample_state).map (fun s => s.events.getLast?)
      = some (some (Event.msg_drop 0 (log_path_options_chain 1 sample_path_options)
          AckType.AT_PROCESSED)) ∧
    (log_filterx_pipe_queue sample_expr_drop_falsy sample_pipe 1 0 sample_path_options
        sample_state).map (fun s => s.flags 0) = some true ∧
    (log_filterx_pipe_queue sample_expr_unrenderable sample_pipe 1 0 sample_path_options
        sample_unrenderable_state).isSome = false := by
  decide

/-- Events and flags that `queue_leave` leaves: the result record when tracing is on,
then exactly one forward or drop; the flag is written only for `FXE_FAILURE` on a path
that carries it. -/
theorem queue_leave_effect (self : LogFilterXPipe) (msg : Nat) (path_options : LogPathOptions)
    (payload : Nat) (r : FilterXEvalResult) (s4 : State) :
    (queue_leave self msg path_options payload r s4).events =
      (msg_trace (Event.trace_result (filterx_format_eval_result r) self.name
          (filterx_scope_is_dirty (s4.contexts path_options.filterx_context).scope s4) msg)
        s4).events ++
        [if r = FXE_SUCCESS then Event.forward_msg msg path_options
         else Event.msg_drop msg path_options AckType.AT_PROCESSED] ∧
    (queue_leave self msg path_options payload r s4).flags =
      if r = FXE_FAILURE then
        (match path_options.matched with
         | some matched => Function.update s4.flags matched false
         | none => s4.flags)
      else s4.flags := by
  have hflags : ∀ record, (msg_trace record s4).flags = s4.flags := by
    intro record
    unfold msg_trace
    split <;> rfl
  cases r <;> cases hm : path_options.matched <;>
    simp [queue_leave, dispatch, nv_table_unref, log_pipe_forward_msg, log_msg_drop, hm, hflags]

/-- C4, amended: once `filterx_eval_exec` has returned `r`, `log_filterx_pipe_queue`
returns, having emitted after the result record exactly one of forward and drop: the
message is forwarded iff `r` is `FXE_SUCCESS`, and dropped with the reason
`AT_PROCESSED` iff `r` is `FXE_FAILURE` or `FXE_DROP`; a flag the path carries is set to
false when `r` is `FXE_FAILURE` and keeps its value otherwise, every other flag keeps
its value. Consequently a truthy value with the classification `FXE_DROP` is dropped
with the flags untouched; a falsy value is always dropped, and with the carried flag
cleared unless the classification `FXE_DROP` was set. On a NULL evaluation the stage
returns iff a context is current as the expression returns and, with debugging on, the
pending error can be rendered for the debug record; whenever it returns, the message is
dropped and the carried flag is cleared. -/
theorem log_filterx_pipe_queue_dispatch
    (filterx_expr_eval : Nat → State → Option Nat × State)
    (self : LogFilterXPipe) (local_context msg : Nat) (path_options : LogPathOptions)
    (s : State) :
    (∀ r s4,
      filterx_eval_exec filterx_expr_eval local_context self.block msg
        (queue_enter self local_context msg path_options s).2 = some (r, s4) →
      ∃ s', log_filterx_pipe_queue filterx_expr_eval self local_context msg path_options s
          = some s' ∧
        (s'.events =
            (msg_trace (Event.trace_result (filterx_format_eval_result r) self.name true msg)
              s4).events ++
              [Event.forward_msg msg (log_path_options_chain local_context path_options)]
          ↔ r = FXE_SUCCESS) ∧
        (s'.events =
            (msg_trace (Event.trace_result (filterx_format_eval_result r) self.name true msg)
              s4).events ++
              [Event.msg_drop msg (log_path_options_chain local_context path_options)
                AckType.AT_PROCESSED]
          ↔ (r = FXE_FAILURE ∨ r = FXE_DROP)) ∧
        (∀ m, path_options.matched = some m →
          s'.flags m = if r = FXE_FAILURE then false else s4.flags m) ∧
        (∀ a, path_options.matched ≠ some a → s'.flags a = s4.flags a)) ∧
    (∀ res s2,
      filterx_expr_eval self.block
        (bind_msgs local_context msg (queue_enter self local_context msg path_options s).2)
        = (some res, s2) →
      (filterx_object_truthy res s2 = true →
       (s2.contexts local_context).error.error_type = FXE_DROP →
        ∃ s', log_filterx_pipe_queue filterx_expr_eval self local_context msg path_options s
            = some s' ∧
          s'.events.getLast? =
            some (Event.msg_drop msg (log_path_options_chain local_context path_options)
              AckType.AT_PROCESSED) ∧
          s'.flags = s2.flags) ∧
      (filterx_object_truthy res s2 = false →
        ∃ s', log_filterx_pipe_queue filterx_expr_eval self local_context msg path_options s
            = some s' ∧
          s'.events.getLast? =
            some (Event.msg_drop msg (log_path_options_chain local_context path_options)
              AckType.AT_PROCESSED) ∧
          ((s2.contexts local_context).error.error_type ≠ FXE_DROP →
            ∀ m, path_options.matched = some m → s'.flags m = false))) ∧
    (∀ s2,
      filterx_expr_eval self.block
        (bind_msgs local_context msg (queue_enter self local_context msg path_options s).2)
        = (none, s2) →
      ((log_filterx_pipe_queue filterx_expr_eval self local_context msg path_options
          s).isSome = true ↔
        (s2.eval_context.isSome = true ∧
         (s2.debug_flag = true → (filterx_format_last_error s2).isSome = true))) ∧
      (∀ s', log_filterx_pipe_queue filterx_expr_eval self local_context msg path_options s
          = some s' →
        s'.events.getLast? =
          some (Event.msg_drop msg (log_path_options_chain local_context path_options)
            AckType.AT_PROCESSED) ∧
        ∀ m, path_options.matched = some m → s'.flags m = false)) := by
  have hdisp : ∀ r s4,
      filterx_eval_exec filterx_expr_eval local_context self.block msg
        (queue_enter self local_context msg path_options s).2 = some (r, s4) →
      ∃ s', log_filterx_pipe_queue filterx_expr_eval self local_context msg path_options s
          = some s' ∧
        s'.events =
          (msg_trace (Event.trace_result (filterx_format_eval_result r) self.name true msg)
            s4).events ++
            [if r = FXE_SUCCESS then
               Event.forward_msg msg (log_path_options_chain local_context path_options)
             else Event.msg_drop msg (log_path_options_chain local_context path_options)
               AckType.AT_PROCESSED] ∧
        s'.flags =
          if r = FXE_FAILURE then
            (match path_options.matched with
             | some matched => Function.update s4.flags matched false
             | none => s4.flags)
          else s4.flags := by
    intro r s4 hexec
    refine ⟨_, queue_of_exec filterx_expr_eval self local_context msg path_options s r s4 hexec,
      ?_⟩
    have hd := exec_some_dirty filterx_expr_eval local_context self.block msg _ r s4 hexec
    have he := queue_leave_effect self msg (log_path_options_chain local_context path_options)
      (queue_enter self local_context msg path_options s).1 r s4
    simp only [log_path_options_chain] at he hd ⊢
    rw [hd] at he
    exact he
  refine ⟨?_, ?_, ?_⟩
  · intro r s4 hexec
    obtain ⟨s', hq, hev, hfl⟩ := hdisp r s4 hexec
    refine ⟨s', hq, ?_, ?_, ?_, ?_⟩
    · rw [hev]; cases r <;> simp
    · rw [hev]; cases r <;> simp
    · intro m hm
      rw [hfl, hm]
      cases r <;> simp
    · intro a ha
      rw [hfl]
      cases r <;> cases hm : path_options.matched <;> simp
      rename_i m
      rw [hm] at ha
      exact Function.update_noteq (fun h => ha (by rw [h])) _ _
  · intro res s2 hout
    have hexec := exec_of_value filterx_expr_eval local_context self.block msg _ res s2 hout
    obtain ⟨s', hq, hev, hfl⟩ := hdisp _ _ hexec
    constructor
    · intro _ hcls
      refine ⟨s', hq, ?_, ?_⟩
      · rw [hev]; simp [exec_result, hcls]
      · rw [hfl]; simp [exec_result, hcls, filterx_scope_set_dirty]
    · intro hfalsy
      refine ⟨s', hq, ?_, ?_⟩
      · rw [hev]
        cases hcls : (s2.contexts local_context).error.error_type <;>
          simp [exec_result, hcls, hfalsy]
      · intro hnd m hm
        rw [hfl, hm]
        cases hcls : (s2.contexts local_context).error.error_type <;>
          simp [exec_result, hcls, hfalsy] at hnd ⊢
  · intro s2 hout
    have hsame : (log_filterx_pipe_queue filterx_expr_eval self local_context msg
        path_options s).isSome =
        (filterx_eval_exec filterx_expr_eval local_context self.block msg
          (queue_enter self local_context msg path_options s).2).isSome := by
      simp only [log_filterx_pipe_queue, log_path_options_chain]
      rcases filterx_eval_exec filterx_expr_eval local_context self.block msg
          (queue_enter self local_context msg path_options s).2 with _ | ⟨r, s4⟩ <;> rfl
    constructor
    · rw [hsame]
      exact exec_null_returns_iff filterx_expr_eval local_context self.block msg _ s2 hout
    · intro s' hq'
      have hsome : (filterx_eval_exec filterx_expr_eval local_context self.block msg
          (queue_enter self local_context msg path_options s).2).isSome = true := by
        rw [← hsame, hq']
        rfl
      obtain ⟨⟨r, s4⟩, hexec⟩ := Option.isSome_iff_exists.mp hsome
      have hr := exec_null_failure filterx_expr_eval local_context self.block msg _ s2 r s4
        hout hexec
      subst hr
      obtain ⟨s1, hq, hev, hfl⟩ := hdisp _ _ hexec
      rw [hq, Option.some.injEq] at hq'
      subst hq'
      refine ⟨?_, ?_⟩
      · rw [hev]; simp
      · intro m hm
        rw [hfl, hm]
        simp

/-- Witness of `log_filterx_pipe_queue_dispatch`: a NULL evaluation in the sample stage
is dropped and the "matched" flag at address 0 is cleared. -/
theorem log_filterx_pipe_queue_dispatch_witness :
    ∃ s', log_filterx_pipe_queue sample_expr_null sample_pipe 1 0 sample_path_options
        sample_state = some s' ∧
      s'.events.getLast? =
        some (Event.msg_drop 0 (log_path_options_chain 1 sample_path_options)
          AckType.AT_PROCESSED) ∧
      s'.flags 0 = false :=
  match Option.isSome_iff_exists.mp
      (((log_filterx_pipe_queue_dispatch sample_expr_null sample_pipe 1 0 sample_path_options
        sample_state).2.2 _ rfl).1.mpr ⟨rfl, fun _ => by decide⟩) with
  | ⟨s', h⟩ =>
    ⟨s', h,
      (((log_filterx_pipe_queue_dispatch sample_expr_null sample_pipe 1 0 sample_path_options
        sample_state).2.2 _ rfl).2 s' h).1,
      (((log_filterx_pipe_queue_dispatch sample_expr_null sample_pipe 1 0 sample_path_options
        sample_state).2.2 _ rfl).2 s' h).2 0 rfl⟩

/-! ## The Weak-Reference Registry -/

/-- Unfolding of `filterx_eval_store_weak_ref` on an unfrozen, not yet registered object
when the current context `c` has the registry `r`. -/
theorem store_weak_ref_fresh (o : Nat) (s : State) (c r : Nat)
    (hfrozen : (s.objects o).frozen = false)
    (hflag : (s.objects o).weak_referenced = false)
    (hcur : s.eval_context = some c)
    (hreg : (s.contexts c).weak_refs = some r) :
    filterx_eval_store_weak_ref (some o) s =
      some (g_ptr_array_add r o (filterx_object_ref (some o)
        { s with objects := Function.update s.objects o
                   { s.objects o with weak_referenced := true } })) := by
  simp [filterx_eval_store_weak_ref, filterx_object_is_frozen, filterx_eval_get_context,
    hfrozen, hflag, hcur, hreg]

/-- Unfolding of `filterx_eval_store_weak_ref` on an object that is frozen or already
registered: nothing happens. -/
theorem store_weak_ref_skip (o : Nat) (s : State)
    (h : (s.objects o).frozen = true ∨ (s.objects o).weak_referenced = true) :
    filterx_eval_store_weak_ref (some o) s = some s := by
  rcases h with h | h
  · simp [filterx_eval_store_weak_ref, filterx_object_is_frozen, h]
  · by_cases hf : (s.objects o).frozen = true
    · simp [filterx_eval_store_weak_ref, filterx_object_is_frozen, hf]
    · simp [filterx_eval_store_weak_ref, filterx_object_is_frozen, hf, h]

/-- One call of `filterx_eval_store_weak_ref` changes no `frozen` flag and keeps every
registry free of frozen objects. -/
theorem store_weak_ref_unfrozen (object : Option Nat) (s s1 : State)
    (hcall : filterx_eval_store_weak_ref object s = some s1)
    (hinv : registries_unfrozen s) :
    registries_unfrozen s1 ∧ ∀ x, (s1.objects x).frozen = (s.objects x).frozen := by
  cases object with
  | none =>
    simp only [filterx_eval_store_weak_ref, Option.some.injEq] at hcall
    subst hcall
    exact ⟨hinv, fun _ => rfl⟩
  | some o =>
    by_cases hskip : (s.objects o).frozen = true ∨ (s.objects o).weak_referenced = true
    · rw [store_weak_ref_skip o s hskip, Option.some.injEq] at hcall
      subst hcall
      exact ⟨hinv, fun _ => rfl⟩
    · have hfrozen : (s.objects o).frozen = false := by
        cases h : (s.objects o).frozen
        · rfl
        · exact absurd (Or.inl h) hskip
      have hflag : (s.objects o).weak_referenced = false := by
        cases h : (s.objects o).weak_referenced
        · rfl
        · exact absurd (Or.inr h) hskip
      rcases hc : s.eval_context with _ | c
      · simp [filterx_eval_store_weak_ref, filterx_object_is_frozen, filterx_eval_get_context,
          hfrozen, hflag, hc] at hcall
      · rcases hr : (s.contexts c).weak_refs with _ | r
        · simp [filterx_eval_store_weak_ref, filterx_object_is_frozen,
            filterx_eval_get_context, hfrozen, hflag, hc, hr] at hcall
        · rw [store_weak_ref_fresh o s c r hfrozen hflag hc hr, Option.some.injEq] at hcall
          subst hcall
          have hfr : ∀ x, ((g_ptr_array_add r o (filterx_object_ref (some o)
              { s with objects := Function.update s.objects o
                         { s.objects o with weak_referenced := true } })).objects x).frozen
              = (s.objects x).frozen := by
            intro x
            simp only [g_ptr_array_add]
            rw [ref_frozen]
            by_cases hx : x = o
            · subst hx; simp
            · simp [Function.update_noteq hx]
          refine ⟨?_, hfr⟩
          intro r1 ys hys x hx
          rw [hfr]
          by_cases hr1 : r1 = r
          · subst hr1
            simp only [g_ptr_array_add, ref_arrays, Function.update_same] at hys
            rcases harr : s.arrays r1 with _ | xs
            · rw [harr] at hys; simp at hys
            · rw [harr] at hys
              simp only [Option.map_some', Option.some.injEq] at hys
              subst hys
              rcases List.mem_append.mp hx with hx | hx
              · exact hinv r1 xs harr x hx
              · rw [List.mem_singleton.mp hx]; exact hfrozen
          · simp only [g_ptr_array_add, ref_arrays, Function.update_noteq hr1] at hys
            exact hinv r1 ys hys x hx

/-- C6: `filterx_eval_store_weak_ref` on NULL and on a frozen object returns the memory
it was given: no registry, reference count or flag changes. Hence, over any run of
calls, a registry that holds no frozen object never comes to hold one. -/
theorem filterx_eval_store_weak_ref_noop (s : State) :
    filterx_eval_store_weak_ref none s = some s ∧
    (∀ o, (s.objects o).frozen = true → filterx_eval_store_weak_ref (some o) s = some s) ∧
    (∀ objects s1, registries_unfrozen s → store_weak_refs objects s = some s1 →
      registries_unfrozen s1) := by
  refine ⟨rfl, fun o h => store_weak_ref_skip o s (Or.inl h), ?_⟩
  intro objects
  induction objects generalizing s with
  | nil =>
    intro s1 hinv hrun
    simp only [store_weak_refs, Option.some.injEq] at hrun
    subst hrun
    exact hinv
  | cons object rest ih =>
    intro s1 hinv hrun
    simp only [store_weak_refs] at hrun
    rcases hcall : filterx_eval_store_weak_ref object s with _ | s0
    · rw [hcall] at hrun; simp at hrun
    · rw [hcall] at hrun
      exact ih s0 s1 (store_weak_ref_unfrozen object s s0 hcall hinv).1 hrun

/-- Witness of `filterx_eval_store_weak_ref_noop`: the frozen object at address 8 of the
sample memory is not registered. -/
theorem filterx_eval_store_weak_ref_noop_witness :
    (sample_state.objects 8).frozen = true ∧
    filterx_eval_store_weak_ref (some 8) sample_state = some sample_state :=
  ⟨rfl, (filterx_eval_store_weak_ref_noop sample_state).2.1 8 rfl⟩

/-! ## Setting up and tearing down a context -/

/-- Running the element destructor over the entries of a registry: every unfrozen object
loses as many references as it has entries; flags and all other heaps are untouched. -/
theorem foldl_unref (xs : List Nat) (s : State) :
    (∀ o, ((xs.foldl (fun st x => filterx_object_unref (some x) st) s).objects o).ref_cnt =
        if (s.objects o).frozen = true then (s.objects o).ref_cnt
        else (s.objects o).ref_cnt - (xs.count o : Int)) ∧
    (∀ o, ((xs.foldl (fun st x => filterx_object_unref (some x) st) s).objects o).frozen =
        (s.objects o).frozen) ∧
    (xs.foldl (fun st x => filterx_object_unref (some x) st) s).arrays = s.arrays ∧
    (xs.foldl (fun st x => filterx_object_unref (some x) st) s).contexts = s.contexts ∧
    (xs.foldl (fun st x => filterx_object_unref (some x) st) s).scopes = s.scopes := by
  induction xs generalizing s with
  | nil => simp
  | cons x rest ih =>
    obtain ⟨hcnt, hfr, harr, hctx, hsc⟩ := ih (filterx_object_unref (some x) s)
    simp only [List.foldl_cons]
    refine ⟨?_, ?_, by rw [harr, unref_arrays], by rw [hctx, unref_contexts],
      by rw [hsc, unref_scopes]⟩
    · intro o
      rw [hcnt o, unref_frozen, unref_ref_cnt]
      by_cases hf : (s.objects o).frozen = true
      · simp [hf]
      · by_cases hx : x = o
        · subst hx
          simp [hf]
          omega
        · have hne : ¬ (some x = some o) := fun h => hx (Option.some.inj h)
          simp [hf, hx, hne, List.count_cons_of_ne (Ne.symm hx)]
    · intro o
      rw [hfr o, unref_frozen]

/-- The context that `filterx_eval_init_context` builds at `context`. -/
theorem init_context_fields (context : Nat) (previous_context : Option Nat) (s : State) :
    (filterx_eval_init_context context previous_context s).eval_context = some context ∧
    ((filterx_eval_init_context context previous_context s).contexts context).previous_context
      = previous_context ∧
    ((filterx_eval_init_context context previous_context s).contexts context).error
      = FilterXError.zero ∧
    ((filterx_eval_init_context context previous_context s).contexts context).template_eval_options
      = LogTemplateEvalOptions.DEFAULT_TEMPLATE_EVAL_OPTIONS ∧
    (filterx_eval_init_context context previous_context s).objects = s.objects ∧
    (filterx_eval_init_context context previous_context s).texts = s.texts := by
  cases previous_context with
  | none =>
    simp [filterx_eval_init_context, filterx_eval_set_context, set_context_fields,
      FilterXEvalContext.zero, filterx_scope_new, filterx_scope_make_writable,
      g_ptr_array_new_with_free_func]
  | some p =>
    by_cases hwp : (s.scopes (s.contexts p).scope).write_protected = true <;>
    simp [filterx_eval_init_context, filterx_eval_set_context, set_context_fields,
      FilterXEvalContext.zero, filterx_scope_ref, filterx_scope_make_writable,
      filterx_scope_unref, hwp]

/-- Nesting a context under a predecessor allocates no registry. -/
theorem init_context_nested_arrays (context p : Nat) (s : State) :
    (filterx_eval_init_context context (some p) s).arrays = s.arrays ∧
    (filterx_eval_init_context context (some p) s).array_brk = s.array_brk := by
  by_cases hwp : (s.scopes (s.contexts p).scope).write_protected = true <;>
  simp [filterx_eval_init_context, filterx_eval_set_context, set_context_fields,
    filterx_scope_ref, filterx_scope_make_writable, filterx_scope_unref, hwp]

/-- Tearing down a nested context touches neither the arrays nor the objects. -/
theorem deinit_nested (context : Nat) (s : State)
    (hprev : (s.contexts context).previous_context ≠ none) :
    (filterx_eval_deinit_context context s).arrays = s.arrays ∧
    (filterx_eval_deinit_context context s).objects = s.objects := by
  rcases hp : (s.contexts context).previous_context with _ | p
  · exact absurd hp hprev
  · simp [filterx_eval_deinit_context, filterx_eval_set_context, filterx_scope_unref, hp]

/-- C7: `filterx_eval_deinit_context` on a context with an allocated registry `r`
releases the registry iff the context has no predecessor. For a root context the array
is gone afterwards and every unfrozen object has lost exactly one reference per entry
(exactly one when it was registered once); for a nested context the arrays and the
objects are exactly as before, in particular after tearing down a context that
`filterx_eval_init_context` has nested under `p`. In both cases the thread's current
context becomes the predecessor. -/
theorem filterx_eval_deinit_context_registry (context : Nat) (s : State) (r : Nat)
    (xs : List Nat)
    (hreg : (s.contexts context).weak_refs = some r)
    (harr : s.arrays r = some xs) :
    ((filterx_eval_deinit_context context s).arrays r = none ↔
      (s.contexts context).previous_context = none) ∧
    ((s.contexts context).previous_context = none →
      (∀ o, ((filterx_eval_deinit_context context s).objects o).ref_cnt =
        if (s.objects o).frozen = true then (s.objects o).ref_cnt
        else (s.objects o).ref_cnt - (xs.count o : Int)) ∧
      (∀ o, (s.objects o).frozen = false → xs.count o = 1 →
        ((filterx_eval_deinit_context context s).objects o).ref_cnt =
          (s.objects o).ref_cnt - 1)) ∧
    ((s.contexts context).previous_context ≠ none →
      (filterx_eval_deinit_context context s).arrays = s.arrays ∧
      (filterx_eval_deinit_context context s).objects = s.objects) ∧
    (∀ p s0, (filterx_eval_deinit_context context
        (filterx_eval_init_context context (some p) s0)).arrays = s0.arrays ∧
      (filterx_eval_deinit_context context
        (filterx_eval_init_context context (some p) s0)).objects = s0.objects) ∧
    (filterx_eval_deinit_context context s).eval_context =
      (s.contexts context).previous_context := by
  obtain ⟨hcnt, _, harrs, hctx, _⟩ := foldl_unref xs s
  have hroot : (s.contexts context).previous_context = none →
      (filterx_eval_deinit_context context s).arrays = Function.update s.arrays r none ∧
      (filterx_eval_deinit_context context s).objects =
        (xs.foldl (fun st x => filterx_object_unref (some x) st) s).objects := by
    intro hp
    simp [filterx_eval_deinit_context, filterx_eval_set_context, filterx_scope_unref, hp,
      g_ptr_array_free, hreg, harr, harrs]
  refine ⟨?_, ?_, deinit_nested context s, ?_, ?_⟩
  · constructor
    · intro hnone
      by_contra hprev
      rw [(deinit_nested context s hprev).1, harr] at hnone
      exact absurd hnone (by simp)
    · intro hp
      rw [(hroot hp).1]
      simp
  · intro hp
    have hall : ∀ o, ((filterx_eval_deinit_context context s).objects o).ref_cnt =
        if (s.objects o).frozen = true then (s.objects o).ref_cnt
        else (s.objects o).ref_cnt - (xs.count o : Int) := by
      intro o
      rw [(hroot hp).2]
      exact hcnt o
    refine ⟨hall, ?_⟩
    intro o hfr hone
    rw [hall o, hfr, hone]
    simp
  · intro p s0
    have hprev : ((filterx_eval_init_context context (some p) s0).contexts
        context).previous_context ≠ none := by
      rw [(init_context_fields context (some p) s0).2.1]
      simp
    obtain ⟨ha, ho⟩ := deinit_nested context _ hprev
    rw [ha, ho, (init_context_nested_arrays context p s0).1,
      (init_context_fields context (some p) s0).2.2.2.2.1]
    exact ⟨rfl, rfl⟩
  · by_cases hp : (s.contexts context).previous_context = none
    · simp [filterx_eval_deinit_context, filterx_eval_set_context, filterx_scope_unref, hp,
        g_ptr_array_free, hreg, harr, hctx]
    · rcases hq : (s.contexts context).previous_context with _ | q
      · exact absurd hq hp
      · simp [filterx_eval_deinit_context, filterx_eval_set_context, filterx_scope_unref, hq]

/-- Witness of `filterx_eval_deinit_context_registry`: tearing down the root context
releases the registry and takes one reference from object 3. -/
theorem filterx_eval_deinit_context_registry_witness :
    (filterx_eval_deinit_context 0 sample_root_state).arrays 0 = none ∧
    ((filterx_eval_deinit_context 0 sample_root_state).objects 3).ref_cnt = 0 :=
  match filterx_eval_deinit_context_registry 0 sample_root_state 0 [3, 4] rfl rfl with
  | ⟨hiff, hroot, _, _, _⟩ =>
    ⟨hiff.mpr rfl, by rw [(hroot rfl).2 3 rfl (by decide)]; rfl⟩

/-- C8: `filterx_eval_init_context context previous_context`. With a predecessor `p`:
the registry pointer of the new context is the one of `p` (the same array, no array is
allocated); its Scope is the Scope of `p` with one more reference when that Scope is
not write-protected, and otherwise a fresh writable clone held once, the reference on
the Scope of `p` being given back. With no predecessor: the Scope is a fresh one, held
once, clean and writable, and the registry is a fresh empty array. In both cases the
Scope of the new context is writable, its Error Slot is empty, its predecessor is
`previous_context`, and it is the thread's current context. -/
theorem filterx_eval_init_context_spec (context : Nat) (s : State) :
    (∀ p,
      ((filterx_eval_init_context context (some p) s).contexts context).weak_refs =
        ((filterx_eval_init_context context (some p) s).contexts p).weak_refs ∧
      (p ≠ context →
        ((filterx_eval_init_context context (some p) s).contexts context).weak_refs =
          (s.contexts p).weak_refs ∧
        (filterx_eval_init_context context (some p) s).contexts p = s.contexts p) ∧
      (filterx_eval_init_context context (some p) s).arrays = s.arrays ∧
      (filterx_eval_init_context context (some p) s).array_brk = s.array_brk ∧
      ((s.scopes (s.contexts p).scope).write_protected = false →
        ((filterx_eval_init_context context (some p) s).contexts context).scope =
          (s.contexts p).scope ∧
        (filterx_eval_init_context context (some p) s).scopes (s.contexts p).scope =
          { s.scopes (s.contexts p).scope with
            ref_cnt := (s.scopes (s.contexts p).scope).ref_cnt + 1 } ∧
        (filterx_eval_init_context context (some p) s).scope_brk = s.scope_brk) ∧
      ((s.scopes (s.contexts p).scope).write_protected = true →
        ((filterx_eval_init_context context (some p) s).contexts context).scope =
          s.scope_brk ∧
        (filterx_eval_init_context context (some p) s).scope_brk = s.scope_brk + 1 ∧
        ((s.contexts p).scope ≠ s.scope_brk →
          (filterx_eval_init_context context (some p) s).scopes s.scope_brk =
            { s.scopes (s.contexts p).scope with ref_cnt := 1, write_protected := false } ∧
          (filterx_eval_init_context context (some p) s).scopes (s.contexts p).scope =
            s.scopes (s.contexts p).scope))) ∧
    (((filterx_eval_init_context context none s).contexts context).scope = s.scope_brk ∧
      (filterx_eval_init_context context none s).scopes s.scope_brk =
        { ref_cnt := 1, dirty := false, write_protected := false } ∧
      (filterx_eval_init_context context none s).scope_brk = s.scope_brk + 1 ∧
      ((filterx_eval_init_context context none s).contexts context).weak_refs
        = some s.array_brk ∧
      (filterx_eval_init_context context none s).arrays s.array_brk = some [] ∧
      (filterx_eval_init_context context none s).array_brk = s.array_brk + 1 ∧
      (∀ a, a ≠ s.array_brk →
        (filterx_eval_init_context context none s).arrays a = s.arrays a)) ∧
    (∀ previous_context,
      ((filterx_eval_init_context context previous_context s).scopes
        ((filterx_eval_init_context context previous_context s).contexts context).scope
        ).write_protected = false ∧
      ((filterx_eval_init_context context previous_context s).contexts context).error =
        { error_type := FXE_SUCCESS, message := none, expr := none, object := none,
          info := none, free_info := false } ∧
      ((filterx_eval_init_context context previous_context s).contexts
        context).previous_context = previous_context ∧
      filterx_eval_get_context (filterx_eval_init_context context previous_context s)
        = some context) := by
  refine ⟨?_, ?_, ?_⟩
  · intro p
    refine ⟨?_, ?_, (init_context_nested_arrays context p s).1,
      (init_context_nested_arrays context p s).2, ?_, ?_⟩
    · by_cases hpc : p = context
      · subst hpc; rfl
      · by_cases hwp : (s.scopes (s.contexts p).scope).write_protected = true <;>
        simp [filterx_eval_init_context, filterx_eval_set_context, set_context_fields,
          filterx_scope_ref, filterx_scope_make_writable, filterx_scope_unref, hwp, hpc]
    · intro hpc
      by_cases hwp : (s.scopes (s.contexts p).scope).write_protected = true <;>
      simp [filterx_eval_init_context, filterx_eval_set_context, set_context_fields,
        filterx_scope_ref, filterx_scope_make_writable, filterx_scope_unref, hwp, hpc]
    · intro hwp
      simp [filterx_eval_init_context, filterx_eval_set_context, set_context_fields,
        filterx_scope_ref, filterx_scope_make_writable, filterx_scope_unref, hwp]
    · intro hwp
      refine ⟨?_, ?_, ?_⟩
      · simp [filterx_eval_init_context, filterx_eval_set_context, set_context_fields,
          filterx_scope_ref, filterx_scope_make_writable, filterx_scope_unref, hwp]
      · simp [filterx_eval_init_context, filterx_eval_set_context, set_context_fields,
          filterx_scope_ref, filterx_scope_make_writable, filterx_scope_unref, hwp]
      · intro hne
        constructor
        · simp [filterx_eval_init_context, filterx_eval_set_context, set_context_fields,
            filterx_scope_ref, filterx_scope_make_writable, filterx_scope_unref, hwp,
            Function.update_noteq (Ne.symm hne)]
        · simp [filterx_eval_init_context, filterx_eval_set_context, set_context_fields,
            filterx_scope_ref, filterx_scope_make_writable, filterx_scope_unref, hwp,
            Function.update_noteq hne]
          rw [← hwp]
  · simp [filterx_eval_init_context, filterx_eval_set_context, set_context_fields,
      FilterXEvalContext.zero, filterx_scope_new, filterx_scope_make_writable,
      g_ptr_array_new_with_free_func]
    intro a ha
    exact Function.update_noteq ha _ _
  · intro previous_context
    obtain ⟨hcur, hprev, herr, _, _, _⟩ := init_context_fields context previous_context s
    refine ⟨?_, herr, hprev, hcur⟩
    cases previous_context with
    | none =>
      simp [filterx_eval_init_context, filterx_eval_set_context, set_context_fields,
        FilterXEvalContext.zero, filterx_scope_new, filterx_scope_make_writable,
        g_ptr_array_new_with_free_func]
    | some p =>
      by_cases hwp : (s.scopes (s.contexts p).scope).write_protected = true
      · by_cases hne : (s.contexts p).scope = s.scope_brk
        · have hwp1 := hwp
          rw [hne] at hwp1
          simp [filterx_eval_init_context, filterx_eval_set_context, set_context_fields,
            filterx_scope_ref, filterx_scope_make_writable, filterx_scope_unref, hwp1, hne]
          rw [hne, Function.update_same]
        · simp [filterx_eval_init_context, filterx_eval_set_context, set_context_fields,
            filterx_scope_ref, filterx_scope_make_writable, filterx_scope_unref, hwp,
            Function.update_noteq (Ne.symm hne)]
      · simp [filterx_eval_init_context, filterx_eval_set_context, set_context_fields,
          filterx_scope_ref, filterx_scope_make_writable, filterx_scope_unref, hwp]

/-- Witness of `filterx_eval_init_context_spec`: nesting context 1 under the root context
0 of the sample memory shares the registry and the Scope of the root. -/
theorem filterx_eval_init_context_spec_witness :
    ((filterx_eval_init_context 1 (some 0) sample_state).contexts 1).weak_refs =
      (sample_state.contexts 0).weak_refs ∧
    ((filterx_eval_init_context 1 (some 0) sample_state).contexts 1).scope =
      (sample_state.contexts 0).scope :=
  ⟨(((filterx_eval_init_context_spec 1 sample_state).1 0).2.1 (by decide)).1,
   (((filterx_eval_init_context_spec 1 sample_state).1 0).2.2.2.2.1 rfl).1⟩

/-! ## The Error Slot -/

/-- C9: with no current context, `filterx_eval_push_error` returns the memory it was
given (no reference is taken), and `filterx_eval_push_error_info` frees the text once
iff `free_info` is set and changes nothing but that free count. -/
theorem push_error_without_context (s : State) (hnone : s.eval_context = none)
    (message : Option String) (expr object info : Option Nat) (free_info : Bool) :
    filterx_eval_push_error message expr object s = s ∧
    filterx_eval_push_error_info message expr info free_info s =
      { s with texts := (filterx_eval_push_error_info message expr info free_info s).texts } ∧
    (∀ a, ((filterx_eval_push_error_info message expr info free_info s).texts a).frees =
      if free_info = true ∧ info = some a then (s.texts a).frees + 1 else (s.texts a).frees) ∧
    (∀ a, ((filterx_eval_push_error_info message expr info free_info s).texts a).str =
      (s.texts a).str) := by
  have hinfo : filterx_eval_push_error_info message expr info free_info s =
      if free_info = true then g_free info s else s := by
    simp [filterx_eval_push_error_info, filterx_eval_get_context, hnone]
  refine ⟨?_, ?_, ?_, ?_⟩
  · simp [filterx_eval_push_error, filterx_eval_get_context, hnone]
  · rw [hinfo]
    cases free_info
    · rfl
    · exact g_free_frame info s
  · intro a
    rw [hinfo]
    cases free_info
    · simp
    · simp only [if_true, true_and]
      exact g_free_frees info a s
  · intro a
    rw [hinfo]
    cases free_info
    · rfl
    · cases info with
      | none => rfl
      | some q =>
        by_cases hq : a = q
        · subst hq; simp [g_free]
        · simp [g_free, Function.update_noteq hq]

/-- Witness of `push_error_without_context`: with no current context the owned text at
address 5 is freed once. -/
theorem push_error_without_context_witness :
    ((filterx_eval_push_error_info (some "failed") none (some 5) true
        sample_idle_state).texts 5).frees = 1 ∧
    filterx_eval_push_error (some "failed") none (some 3) sample_idle_state
      = sample_idle_state :=
  ⟨by rw [(push_error_without_context sample_idle_state rfl (some "failed") none (some 3)
        (some 5) true).2.2.1 5]; rfl,
   (push_error_without_context sample_idle_state rfl (some "failed") none (some 3)
        (some 5) true).1⟩

@[simp] theorem set_error_objects (c : Nat) (f : FilterXError → FilterXError) (s : State) :
    (set_error c f s).objects = s.objects := rfl

@[simp] theorem set_error_texts (c : Nat) (f : FilterXError → FilterXError) (s : State) :
    (set_error c f s).texts = s.texts := rfl

@[simp] theorem set_error_eval_context (c : Nat) (f : FilterXError → FilterXError)
    (s : State) : (set_error c f s).eval_context = s.eval_context := rfl

@[simp] theorem set_error_slot (c : Nat) (f : FilterXError → FilterXError) (s : State) :
    ((set_error c f s).contexts c).error = f (s.contexts c).error := by
  simp [set_error]

/-- What `filterx_eval_push_error` does when `c` is the current context: the slot holds
the new message, expression and object and no text; the old object payload has lost one
reference and the new one has gained one; the old text payload was freed once iff it
was owned. -/
theorem push_error_effect (t : State) (c : Nat) (hcur : t.eval_context = some c)
    (message : Option String) (expr object : Option Nat) :
    (filterx_eval_push_error message expr object t).eval_context = some c ∧
    ((filterx_eval_push_error message expr object t).contexts c).error =
      { error_type := FXE_SUCCESS, message := message, expr := expr, object := object,
        info := none, free_info := false } ∧
    (∀ o, ((filterx_eval_push_error message expr object t).objects o).ref_cnt =
      (t.objects o).ref_cnt
        - (if (t.contexts c).error.object = some o ∧ (t.objects o).frozen = false
           then 1 else 0)
        + (if object = some o ∧ (t.objects o).frozen = false then 1 else 0)) ∧
    (∀ a, ((filterx_eval_push_error message expr object t).texts a).frees =
      (t.texts a).frees
        + (if (t.contexts c).error.info = some a ∧ (t.contexts c).error.free_info = true
           then 1 else 0)) := by
  have hunf : filterx_eval_push_error message expr object t =
      set_error c (fun e => { e with info := none })
        (set_error c (fun e => { e with object := object })
          (filterx_object_ref object
            (set_error c (fun e => { e with expr := expr })
              (set_error c (fun e => { e with message := message })
                (filterx_eval_clear_error c t))))) := by
    simp only [filterx_eval_push_error, filterx_eval_get_context, hcur]
  rw [hunf]
  refine ⟨?_, ?_, ?_, ?_⟩
  · simp [clear_error_eval_context, hcur]
  · simp [clear_error_slot, FilterXError.zero]
  · intro o
    simp only [set_error_objects]
    rw [ref_ref_cnt]
    simp only [set_error_objects]
    rw [clear_error_objects, unref_ref_cnt, unref_frozen]
    split_ifs <;> omega
  · intro a
    simp only [set_error_texts, ref_texts]
    rw [clear_error_texts]
    by_cases hfi : (t.contexts c).error.free_info = true
    · simp only [hfi, if_true, and_true]
      rw [g_free_frees]
      split_ifs <;> rfl
    · simp [hfi]

/-- What `filterx_eval_push_error_info` does when `c` is the current context: the slot
holds the new message, expression and text (with its ownership bit) and no object; the
old object payload has lost one reference; the old text payload was freed once iff it
was owned. -/
theorem push_error_info_effect (t : State) (c : Nat) (hcur : t.eval_context = some c)
    (message : Option String) (expr info : Option Nat) (free_info : Bool) :
    (filterx_eval_push_error_info message expr info free_info t).eval_context = some c ∧
    ((filterx_eval_push_error_info message expr info free_info t).contexts c).error =
      { error_type := FXE_SUCCESS, message := message, expr := expr, object := none,
        info := info, free_info := free_info } ∧
    (∀ o, ((filterx_eval_push_error_info message expr info free_info t).objects o).ref_cnt =
      (t.objects o).ref_cnt
        - (if (t.contexts c).error.object = some o ∧ (t.objects o).frozen = false
           then 1 else 0)) ∧
    (∀ a, ((filterx_eval_push_error_info message expr info free_info t).texts a).frees =
      (t.texts a).frees
        + (if (t.contexts c).error.info = some a ∧ (t.contexts c).error.free_info = true
           then 1 else 0)) := by
  have hunf : filterx_eval_push_error_info message expr info free_info t =
      set_error c (fun e => { e with free_info := free_info })
        (set_error c (fun e => { e with info := info })
          (set_error c (fun e => { e with object := none })
            (set_error c (fun e => { e with expr := expr })
              (set_error c (fun e => { e with message := message })
                (filterx_eval_clear_error c t))))) := by
    simp only [filterx_eval_push_error_info, filterx_eval_get_context, hcur]
  rw [hunf]
  refine ⟨?_, ?_, ?_, ?_⟩
  · simp [clear_error_eval_context, hcur]
  · simp [clear_error_slot, FilterXError.zero]
  · intro o
    simp only [set_error_objects]
    rw [clear_error_objects, unref_ref_cnt]
    split_ifs <;> omega
  · intro a
    simp only [set_error_texts]
    rw [clear_error_texts]
    by_cases hfi : (t.contexts c).error.free_info = true
    · simp only [hfi, if_true, and_true]
      rw [g_free_frees]
      split_ifs <;> rfl
    · simp [hfi]

/-- Every call on the Error Slot of the current context `c` returns, keeps `c` current
and leaves at most one payload kind populated. -/
theorem error_op_exclusive (op : ErrorOp) (t : State) (c : Nat)
    (hcur : t.eval_context = some c) :
    ∃ t1, op.apply t = some t1 ∧ t1.eval_context = some c ∧
      payload_exclusive (t1.contexts c).error := by
  cases op with
  | push_error message expr object =>
    obtain ⟨h1, h2, _, _⟩ := push_error_effect t c hcur message expr object
    exact ⟨_, rfl, h1, by rw [h2]; simp [payload_exclusive]⟩
  | push_error_info message expr info free_info =>
    obtain ⟨h1, h2, _, _⟩ := push_error_info_effect t c hcur message expr info free_info
    exact ⟨_, rfl, h1, by rw [h2]; simp [payload_exclusive]⟩
  | clear_errors =>
    refine ⟨filterx_eval_clear_error c t, ?_, ?_, ?_⟩
    · simp [ErrorOp.apply, filterx_eval_clear_errors, filterx_eval_get_context, hcur]
    · rw [clear_error_eval_context, hcur]
    · rw [clear_error_slot]; simp [payload_exclusive, FilterXError.zero]

/-- C10: from the memory `filterx_eval_init_context` leaves, every sequence of
`filterx_eval_push_error`, `filterx_eval_push_error_info` and
`filterx_eval_clear_errors` runs to the end with the context still current and with at
most one payload kind populated in its Error Slot (object and text are never both
non-NULL). Each push, on any memory with a current context, releases the previous
payload before storing the new one: the old object loses exactly one reference, the old
text is freed exactly once iff it was owned, and the slot then holds the new message,
expression and payload. -/
theorem error_slot_exclusive (context : Nat) (previous_context : Option Nat) (s : State)
    (ops : List ErrorOp) :
    (∃ s', run_error_ops ops (filterx_eval_init_context context previous_context s) = some s' ∧
      s'.eval_context = some context ∧
      payload_exclusive (s'.contexts context).error) ∧
    (∀ (t : State) (c : Nat) (message : Option String) (expr object : Option Nat),
      t.eval_context = some c →
      ((filterx_eval_push_error message expr object t).contexts c).error =
        { error_type := FXE_SUCCESS, message := message, expr := expr, object := object,
          info := none, free_info := false } ∧
      (∀ o, ((filterx_eval_push_error message expr object t).objects o).ref_cnt =
        (t.objects o).ref_cnt
          - (if (t.contexts c).error.object = some o ∧ (t.objects o).frozen = false
             then 1 else 0)
          + (if object = some o ∧ (t.objects o).frozen = false then 1 else 0)) ∧
      (∀ a, ((filterx_eval_push_error message expr object t).texts a).frees =
        (t.texts a).frees
          + (if (t.contexts c).error.info = some a ∧ (t.contexts c).error.free_info = true
             then 1 else 0))) ∧
    (∀ (t : State) (c : Nat) (message : Option String) (expr info : Option Nat)
       (free_info : Bool),
      t.eval_context = some c →
      ((filterx_eval_push_error_info message expr info free_info t).contexts c).error =
        { error_type := FXE_SUCCESS, message := message, expr := expr, object := none,
          info := info, free_info := free_info } ∧
      (∀ o, ((filterx_eval_push_error_info message expr info free_info t).objects o).ref_cnt =
        (t.objects o).ref_cnt
          - (if (t.contexts c).error.object = some o ∧ (t.objects o).frozen = false
             then 1 else 0)) ∧
      (∀ a, ((filterx_eval_push_error_info message expr info free_info t).texts a).frees =
        (t.texts a).frees
          + (if (t.contexts c).error.info = some a ∧ (t.contexts c).error.free_info = true
             then 1 else 0))) := by
  refine ⟨?_, ?_, ?_⟩
  · have hrun : ∀ (ops : List ErrorOp) (t : State), t.eval_context = some context →
        payload_exclusive (t.contexts context).error →
        ∃ s', run_error_ops ops t = some s' ∧ s'.eval_context = some context ∧
          payload_exclusive (s'.contexts context).error := by
      intro ops
      induction ops with
      | nil => intro t hcur hex; exact ⟨t, rfl, hcur, hex⟩
      | cons op rest ih =>
        intro t hcur _
        obtain ⟨t1, happ, hcur1, hex1⟩ := error_op_exclusive op t context hcur
        obtain ⟨s', hrest, hcur2, hex2⟩ := ih t1 hcur1 hex1
        exact ⟨s', by simp only [run_error_ops, happ, hrest], hcur2, hex2⟩
    obtain ⟨hcur, _, herr, _, _, _⟩ := init_context_fields context previous_context s
    exact hrun ops _ hcur (by rw [herr]; simp [payload_exclusive, FilterXError.zero])
  · intro t c message expr object hcur
    exact (push_error_effect t c hcur message expr object).2
  · intro t c message expr info free_info hcur
    exact (push_error_info_effect t c hcur message expr info free_info).2

/-- Witness of `error_slot_exclusive`: on the sample memory, whose current context is 0,
pushing an object error over an owned text frees the text once and leaves no text in
the slot. -/
theorem error_slot_exclusive_witness :
    ((filterx_eval_push_error (some "failed") none (some 3)
        (filterx_eval_push_error_info (some "failed") none (some 5) true
          sample_state)).contexts 0).error.info = none ∧
    ((filterx_eval_push_error (some "failed") none (some 3)
        (filterx_eval_push_error_info (some "failed") none (some 5) true
          sample_state)).texts 5).frees = 1 :=
  match (error_slot_exclusive 0 none sample_state []).2.1
      (filterx_eval_push_error_info (some "failed") none (some 5) true sample_state) 0
      (some "failed") none (some 3) rfl with
  | ⟨hslot, _, htxt⟩ => ⟨by rw [hslot], by rw [htxt 5]; rfl⟩

/-! ## Rendering the last error -/

end FilterX
